import Mathlib

/-!
  Verification development for the AI Accelerator payment handler
  (route: api.innovationbound.com/services/training/chatgpt/accelerator/payment).

  The repository carries three variants of the same Lambda handler:
  * variant A — dollar-string tier catalog ($6,000 / $13,500 / $21,000 / $30,000),
    tier selected through the `finalFee` field (first half of index.js);
  * variant B — named tier catalog (`scholarship` / `vip`), honeypot `mobile`
    field, `addonSupportHours` add-on, e-mail normalised to lower case
    (second half of index.js);
  * variant C — like variant A but without the already-paid guard and with the
    student partition key `student#2026-ai-accelerator` (the unnamed source file).

  The embedding models each handler as a pure function of the parsed request
  body, the relevant slice of the DynamoDB table, and the behaviour of the
  external collaborators (Stripe, DynamoDB failures, SES) for this invocation.
  Money is modelled with exact integers: the JavaScript source computes
  `tier * 0.1` in binary64, and for each of the catalog tiers (6000, 13500,
  21000, 30000) that product is exactly the integer `tier / 10`, and every
  later product and sum of these integers below 2^53 is exact as well, so
  integer arithmetic agrees with the source's double arithmetic on the whole
  validated input domain (seats 0–40, hours 0–100).
  `new Date()` calls are abstracted to one per-request timestamp string and
  `toLocaleDateString` to the identity on that string; PDF bytes, e-mail MIME
  bodies, and log lines are not modelled (no claim mentions their content).
-/

/-- A JavaScript value as it can arrive in one of the loosely typed request
fields: `undefined`, a string, or an (integer-valued) number. -/
inductive JsVal where
  | undef : JsVal
  | str (s : String) : JsVal
  | num (n : Int) : JsVal
  deriving DecidableEq, Repr

/-- JavaScript truthiness of a `JsVal` (`undefined`, `""` and `0` are falsy). -/
def truthy : JsVal → Bool
  | JsVal.undef => false
  | JsVal.str s => !(s == "")
  | JsVal.num n => !(n == 0)

/-- JavaScript string coercion of a `JsVal` (as in template literals). -/
def jsToString : JsVal → String
  | JsVal.undef => "undefined"
  | JsVal.str s => s
  | JsVal.num n => toString n

/-- JavaScript property-key coercion of a `JsVal` (used for `validTiers[tier]`). -/
def jsKey : JsVal → String
  | JsVal.undef => "undefined"
  | JsVal.str s => s
  | JsVal.num n => toString n

/-- ASCII lower-casing, modelling `String.prototype.toLowerCase` on the
e-mail strings this handler sees (structural over the character list so
that proofs can evaluate it). -/
def jsToLowerStr (s : String) : String := String.mk (s.toList.map Char.toLower)

/-- Is this character one of the whitespace characters relevant here? -/
def isWSChar (c : Char) : Bool := c == ' ' || c == '\t' || c == '\n' || c == '\r'

/-- `String.prototype.trim`, structurally: strip whitespace on both ends. -/
def jsTrim (s : String) : String :=
  String.mk (((s.toList.dropWhile isWSChar).reverse.dropWhile isWSChar).reverse)

/-- Maximal run of decimal digits read as a natural number, with evidence
that at least one digit was present. -/
def digitsValue : List Char → Option Int
  | cs =>
      let ds := cs.takeWhile Char.isDigit
      if ds.isEmpty then none
      else some (ds.foldl (fun a c => a * 10 + ((c.toNat : Int) - 48)) (0 : Int))

/-- Model of JavaScript `parseInt` on a string: skips leading whitespace,
reads an optional sign and then a maximal run of decimal digits; `none`
stands for `NaN`.  Hexadecimal prefixes are outside the model. -/
def parseIntStr (s : String) : Option Int :=
  match s.toList.dropWhile isWSChar with
  | [] => none
  | c :: rest =>
      if c == '-' then (digitsValue rest).map (fun n => -n)
      else if c == '+' then digitsValue rest
      else digitsValue (c :: rest)

/-- Model of `parseInt` applied to a request field:
`parseInt(undefined)` is `NaN`, a number parses to itself. -/
def parseIntJS : JsVal → Option Int
  | JsVal.undef => none
  | JsVal.str s => parseIntStr s
  | JsVal.num n => some n

/-- `parseInt(s)` where the argument is one of the catalog tier strings and
therefore always parses (`.getD 0` is never exercised on catalog input). -/
def parseIntD (s : String) : Int := (parseIntStr s).getD 0

/-- One catalog entry of `validTiers`. -/
structure TierInfo where
  tier : String
  fee : String
  seatCost : String
  tierName : Option String := none
  deriving DecidableEq, Repr

/-- Association-list lookup keyed by strings, modelling both object property
lookup and DynamoDB key lookup. -/
def lookupA {α : Type} : List (String × α) → String → Option α
  | [], _ => none
  | (k, v) :: rest, key => if k = key then some v else lookupA rest key

/-- Association-list insert-or-replace, modelling a DynamoDB `PutCommand`
(and `UpdateCommand` creation semantics) on a fixed partition. -/
def setA {α : Type} : List (String × α) → String → α → List (String × α)
  | [], key, v => [(key, v)]
  | (k, w) :: rest, key, v =>
      if k = key then (key, v) :: rest else (k, w) :: setA rest key v

/-- `validTiers` of the dollar-string variants A and C. -/
def validTiersA : List (String × TierInfo) :=
  [("6000", { tier := "6000", fee := "$6,000", seatCost := "$600" }),
   ("13500", { tier := "13500", fee := "$13,500", seatCost := "$1,350" }),
   ("21000", { tier := "21000", fee := "$21,000", seatCost := "$2,100" }),
   ("30000", { tier := "30000", fee := "$30,000", seatCost := "$3,000" })]

/-- `validTiers` of the named-tier variant B. -/
def validTiersB : List (String × TierInfo) :=
  [("scholarship",
    { tier := "6000", fee := "$6,000", seatCost := "$600", tierName := some "Foundational" }),
   ("vip",
    { tier := "30000", fee := "$30,000", seatCost := "$3,000", tierName := some "VIP" })]

/-- Strips `$` and `,`, modelling `feeString.replace(/[$,]/g, '')`. -/
def stripDollarComma (s : String) : String :=
  String.mk (s.toList.filter (fun c => !(c == '$' || c == ',')))

/-- Embeds `parseTierAmount` of variants A and C: cleans the fee string,
parses it, and answers the canonical tier key when it is in the catalog. -/
def parseTierAmount (feeString : String) : Option String :=
  match parseIntStr (stripDollarComma feeString) with
  | none => none
  | some n =>
      if (lookupA validTiersA (toString n)).isSome then some (toString n) else none

/-- The JSON body of a response, one optional field per JSON key that any
`respond` call site of the source can emit. -/
structure RespBody where
  error : Option String := none
  status : Option String := none
  requiresAction : Option Bool := none
  success : Option Bool := none
  message : Option String := none
  enrolled : Option Bool := none
  paymentId : Option String := none
  pendingPayment : Option Bool := none
  details : Option String := none
  deriving DecidableEq, Repr

/-- Embeds `respond(code, message)`; the fixed CORS headers are identical on
every response and are left implicit.  `none` is the empty 204 body. -/
structure Response where
  statusCode : Nat
  body : Option RespBody
  deriving DecidableEq, Repr

def respond204 : Response := ⟨204, none⟩

def resp400 (e : String) : Response := ⟨400, some { error := some e }⟩

def resp404 (e : String) : Response := ⟨404, some { error := some e }⟩

def resp500 (e : String) : Response := ⟨500, some { error := some e }⟩

/-- The attributes of an `application#ai-accelerator` item that the handler
reads or writes; `none` is an absent attribute. -/
structure ApplicationItem where
  email : Option String := none
  company : Option JsVal := none
  paymentStatus : Option String := none
  paymentMethod : Option String := none
  paymentAmount : Option Int := none
  finalFee : Option Int := none
  additionalSeats : Option Int := none
  addonSupportHours : Option Int := none
  jobTitle : Option JsVal := none
  phone : Option JsVal := none
  country : Option JsVal := none
  stripePaymentId : Option String := none
  paidAt : Option String := none
  invoiceRequestedAt : Option String := none
  enrolled : Option Bool := none
  deriving DecidableEq, Repr

/-- The student (enrollment) record written by the `PutCommand` calls. -/
structure StudentRecord where
  pk : String
  studentName : JsVal
  email : String
  company : JsVal
  jobTitle : JsVal
  phone : JsVal
  country : JsVal
  tier : String
  accountOwner : Bool
  paymentStatus : String
  amountPaid : Int
  totalAmount : Int
  paymentPlan : Option String
  baseSeats : Int
  additionalSeats : Int
  addonSupportHours : Option Int
  totalSeats : Int
  stripePaymentId : Option String
  enrolledAt : String
  paymentMethod : String
  deriving DecidableEq, Repr

/-- The slice of the single DynamoDB table this handler touches:
applications and students keyed by applicant e-mail (`sk`), plus the
sequential invoice counter used by variant B. -/
structure Store where
  applications : List (String × ApplicationItem)
  students : List (String × StudentRecord)
  invoiceCounter : Int
  deriving DecidableEq, Repr

/-- Outcome of the `stripe.paymentIntents.create` call: a resolved
PaymentIntent with a status and id, or a thrown error carrying the Stripe
error `type` tag (if any) and `message`. -/
inductive GatewayOutcome where
  | ok (status : String) (id : String) : GatewayOutcome
  | err (errType : Option String) (msg : String) : GatewayOutcome
  deriving DecidableEq, Repr

/-- Behaviour of the external collaborators during this one invocation:
the request timestamp, the Stripe outcome, and whether each DynamoDB /
e-mail step throws (`some msg` is a thrown error with that message). -/
structure ExtCall where
  now : String
  gateway : GatewayOutcome
  getAppErr : Bool := false
  updateAppErr : Option String := none
  putStudentErr : Option String := none
  emailErr : Option String := none
  deriving DecidableEq, Repr

/-- External operations attempted by the handler, in order. -/
inductive Effect where
  | getApplication (key : String) : Effect
  | charge (amountCents : Int) : Effect
  | updateApplication (key : String) : Effect
  | putStudent (pk key : String) : Effect
  | emailSend (toAddr : String) : Effect
  deriving DecidableEq, Repr

/-- Is this effect a state-store write? -/
def Effect.isWrite : Effect → Bool
  | Effect.updateApplication _ => true
  | Effect.putStudent _ _ => true
  | _ => false

/-- Is this effect a gateway charge? -/
def Effect.isCharge : Effect → Bool
  | Effect.charge _ => true
  | _ => false

/-- `UpdateCommand` semantics on the applications partition: modifies the
item when present and creates it otherwise (DynamoDB update-insert). -/
def updateAppAt (apps : List (String × ApplicationItem)) (key : String)
    (f : ApplicationItem → ApplicationItem) : List (String × ApplicationItem) :=
  match lookupA apps key with
  | some it => setA apps key (f it)
  | none => setA apps key (f {})

/-- Embeds the `already paid` conflict error string (index.js, both
variants); `toLocaleDateString` is abstracted to the stored timestamp. -/
def conflictMessage (item : ApplicationItem) : String :=
  let companyPart :=
    match item.company with
    | some v => if truthy v then jsToString v else "this application"
    | none => "this application"
  "Payment already completed for " ++ companyPart ++ " (" ++
    (match item.email with | some e => e | none => "undefined") ++
    "). You enrolled on " ++
    (match item.paidAt with | some d => d | none => "Invalid Date") ++
    ". Contact support@innovationbound.com if you need assistance."

/-- Embeds the catch block of `processCreditCardPayment` (identical in all
variants): classifies the thrown error by its `type` tag and answers 400
with the raw message in `details`. -/
def stripeCatch (errType : Option String) (msg : String) : Response :=
  let errorMessage :=
    if errType == some "StripeCardError" then "Payment declined: " ++ msg
    else if errType == some "StripeInvalidRequestError" then "Invalid payment information."
    else "Payment processing failed."
  ⟨400, some { error := some errorMessage, details := some msg }⟩

/-- The parsed request body (variant B reads it from `json.payment || json`;
that unwrapping is upstream of this model). -/
structure Request where
  httpMethod : String := "POST"
  applicant : JsVal := JsVal.undef
  name : JsVal := JsVal.undef
  finalFee : JsVal := JsVal.undef
  tier : JsVal := JsVal.undef
  additionalSeats : JsVal := JsVal.undef
  addonSupportHours : JsVal := JsVal.undef
  paymentMethod : JsVal := JsVal.undef
  company : JsVal := JsVal.undef
  jobTitle : JsVal := JsVal.undef
  phone : JsVal := JsVal.undef
  country : JsVal := JsVal.undef
  paymentMethodId : JsVal := JsVal.undef
  mobile : JsVal := JsVal.undef
  deriving DecidableEq, Repr


/-- The student record written by the credit-card path (`PutCommand` item);
`hoursOpt` is the `addonSupportHours` attribute, present only in variant B. -/
def cardStudentRecord (pk a : String) (nm co jt ph ct : JsVal) (ta : String)
    (seats cents : Int) (hoursOpt : Option Int) (pid now : String) : StudentRecord :=
  { pk := pk, studentName := nm, email := a, company := co, jobTitle := jt,
    phone := ph, country := ct, tier := ta, accountOwner := true,
    paymentStatus := "complete", amountPaid := cents, totalAmount := cents,
    paymentPlan := some "full", baseSeats := 10, additionalSeats := seats,
    addonSupportHours := hoursOpt, totalSeats := 10 + seats,
    stripePaymentId := some pid, enrolledAt := now, paymentMethod := "credit-card" }

/-- The student record written by the invoice path (pending payment). -/
def invoiceStudentRecord (pk a : String) (nm co jt ph ct : JsVal) (ta : String)
    (seats cents : Int) (hoursOpt : Option Int) (now : String) : StudentRecord :=
  { pk := pk, studentName := nm, email := a, company := co, jobTitle := jt,
    phone := ph, country := ct, tier := ta, accountOwner := true,
    paymentStatus := "pending", amountPaid := 0, totalAmount := cents,
    paymentPlan := none, baseSeats := 10, additionalSeats := seats,
    addonSupportHours := hoursOpt, totalSeats := 10 + seats,
    stripePaymentId := none, enrolledAt := now, paymentMethod := "invoice" }

/-- Embeds `seatPrice = parseInt(tierAmount) * 0.1` (a dollar amount).  For
each catalog tier `t` the binary64 product `t * 0.1` is exactly the integer
`t / 10`, so integer division is an exact model on the catalog. -/
def seatPriceDollars (t : Int) : Int := t / 10

/-- Embeds `totalAmount = parseInt(tierAmount) + (seatPrice * seats)` of the
dollar-tier variants (a dollar amount, not cents). -/
def totalAmountDollarsA (t seats : Int) : Int := t + seatPriceDollars t * seats

/-- Embeds `totalAmount = parseInt(tierAmount) + (seatPrice * seats) +
(supportPrice * supportHours)` of variant B, with `supportPrice = 300`
dollars per hour (a dollar amount, not cents). -/
def totalAmountDollarsB (t seats hours : Int) : Int :=
  t + seatPriceDollars t * seats + 300 * hours

/-- Embeds `totalAmountCents = totalAmount * 100` (single conversion from
dollars to cents at the end of the pricing block, variants A and C). -/
def totalAmountCentsA (t seats : Int) : Int := totalAmountDollarsA t seats * 100

/-- Embeds `totalAmountCents = totalAmount * 100` (variant B). -/
def totalAmountCentsB (t seats hours : Int) : Int := totalAmountDollarsB t seats hours * 100

/-- Embeds `processCreditCardPayment` of the dollar-tier variants A and C
(they differ only in the student partition key, passed as `pkStudent`).
`totalAmount` (dollars) feeds only log lines and e-mail text and is omitted;
the Stripe description and metadata are not modelled. -/
def processCreditCardPaymentAC (pkStudent : String) (applicant : String)
    (nameV companyV jobTitleV phoneV countryV : JsVal) (tierAmount : String)
    (seats totalAmountCents : Int) (paymentMethodId : JsVal)
    (st : Store) (ext : ExtCall) (effs : List Effect) :
    Response × Store × List Effect :=
  if !(truthy paymentMethodId) then
    (resp400 "Payment method ID is required for credit card payments.", st, effs)
  else
    let effs := effs ++ [Effect.charge totalAmountCents]
    match ext.gateway with
    | GatewayOutcome.err ty msg => (stripeCatch ty msg, st, effs)
    | GatewayOutcome.ok status pid =>
      if !(status == "succeeded") then
        (⟨400, some { error := some "Payment could not be completed.",
                      status := some status,
                      requiresAction := some (status == "requires_action") }⟩, st, effs)
      else
        let effs := effs ++ [Effect.updateApplication applicant]
        match ext.updateAppErr with
        | some msg => (stripeCatch none msg, st, effs)
        | none =>
          let st1 := { st with applications := (updateAppAt st.applications applicant
            (fun it => { it with
              paymentMethod := some "credit-card", paymentStatus := some "paid",
              paymentAmount := some totalAmountCents,
              finalFee := some (parseIntD tierAmount),
              additionalSeats := some seats,
              company := some companyV, jobTitle := some jobTitleV,
              phone := some phoneV, country := some countryV,
              stripePaymentId := some pid, paidAt := some ext.now,
              enrolled := some true })) }
          let effs := effs ++ [Effect.putStudent pkStudent applicant]
          match ext.putStudentErr with
          | some msg => (stripeCatch none msg, st1, effs)
          | none =>
            let st2 := { st1 with students := (setA st1.students applicant
              (cardStudentRecord pkStudent applicant nameV companyV jobTitleV
                phoneV countryV tierAmount seats totalAmountCents none pid ext.now)) }
            match ext.emailErr with
            | some msg => (stripeCatch none msg, st2, effs)
            | none =>
              let effs := effs ++ [Effect.emailSend applicant]
              (⟨200, some { success := some true, message := some "Payment successful! Check your email for enrollment confirmation.", enrolled := some true, paymentId := some pid }⟩, st2, effs)

/-- Embeds `processInvoiceRequest` of variants A and C (identical up to the
student partition key; any thrown error lands in the catch that answers 500). -/
def processInvoiceRequestAC (pkStudent : String) (applicant : String)
    (nameV companyV jobTitleV phoneV countryV : JsVal) (tierAmount : String)
    (seats totalAmountCents : Int)
    (st : Store) (ext : ExtCall) (effs : List Effect) :
    Response × Store × List Effect :=
  let effs := effs ++ [Effect.updateApplication applicant]
  match ext.updateAppErr with
  | some _ => (resp500 "Invoice request failed. Please try again.", st, effs)
  | none =>
    let st1 := { st with applications := (updateAppAt st.applications applicant
      (fun it => { it with
        paymentMethod := some "invoice", paymentStatus := some "pending",
        paymentAmount := some totalAmountCents,
        finalFee := some (parseIntD tierAmount),
        additionalSeats := some seats,
        company := some companyV, jobTitle := some jobTitleV,
        phone := some phoneV, country := some countryV,
        invoiceRequestedAt := some ext.now,
        enrolled := some false })) }
    let effs := effs ++ [Effect.putStudent pkStudent applicant]
    match ext.putStudentErr with
    | some _ => (resp500 "Invoice request failed. Please try again.", st1, effs)
    | none =>
      let st2 := { st1 with students := (setA st1.students applicant
        (invoiceStudentRecord pkStudent applicant nameV companyV jobTitleV
          phoneV countryV tierAmount seats totalAmountCents none ext.now)) }
      match ext.emailErr with
      | some _ => (resp500 "Invoice request failed. Please try again.", st2, effs)
      | none =>
        let effs := effs ++ [Effect.emailSend applicant]
        (⟨200, some { success := some true, message := some "Invoice request received! We'll send your invoice within 24 hours.", enrolled := some false, pendingPayment := some true }⟩, st2, effs)

/-- Embeds `processCreditCardPayment` of the named-tier variant B: like the
A/C version plus the `addonSupportHours` attribute on both writes. -/
def processCreditCardPaymentB (applicant : String)
    (nameV companyV jobTitleV phoneV countryV : JsVal) (tierAmount : String)
    (seats supportHours totalAmountCents : Int) (paymentMethodId : JsVal)
    (st : Store) (ext : ExtCall) (effs : List Effect) :
    Response × Store × List Effect :=
  if !(truthy paymentMethodId) then
    (resp400 "Payment method ID is required for credit card payments.", st, effs)
  else
    let effs := effs ++ [Effect.charge totalAmountCents]
    match ext.gateway with
    | GatewayOutcome.err ty msg => (stripeCatch ty msg, st, effs)
    | GatewayOutcome.ok status pid =>
      if !(status == "succeeded") then
        (⟨400, some { error := some "Payment could not be completed.",
                      status := some status,
                      requiresAction := some (status == "requires_action") }⟩, st, effs)
      else
        let effs := effs ++ [Effect.updateApplication applicant]
        match ext.updateAppErr with
        | some msg => (stripeCatch none msg, st, effs)
        | none =>
          let st1 := { st with applications := (updateAppAt st.applications applicant
            (fun it => { it with
              paymentMethod := some "credit-card", paymentStatus := some "paid",
              paymentAmount := some totalAmountCents,
              finalFee := some (parseIntD tierAmount),
              additionalSeats := some seats,
              addonSupportHours := some supportHours,
              company := some companyV, jobTitle := some jobTitleV,
              phone := some phoneV, country := some countryV,
              stripePaymentId := some pid, paidAt := some ext.now,
              enrolled := some true })) }
          let effs := effs ++ [Effect.putStudent "student#ai-accelerator" applicant]
          match ext.putStudentErr with
          | some msg => (stripeCatch none msg, st1, effs)
          | none =>
            let st2 := { st1 with students := (setA st1.students applicant
              (cardStudentRecord "student#ai-accelerator" applicant nameV
                companyV jobTitleV phoneV countryV tierAmount seats
                totalAmountCents (some supportHours) pid ext.now)) }
            match ext.emailErr with
            | some msg => (stripeCatch none msg, st2, effs)
            | none =>
              -- the e-mail step of variant B draws the next sequential invoice
              -- number before sending; a failed step is folded into emailErr
              let st3 := { st2 with invoiceCounter := st2.invoiceCounter + 1 }
              let effs := effs ++ [Effect.emailSend applicant]
              (⟨200, some { success := some true, message := some "Payment successful! Check your email for enrollment confirmation.", enrolled := some true, paymentId := some pid }⟩, st3, effs)

/-- Embeds `processInvoiceRequest` of variant B. -/
def processInvoiceRequestB (applicant : String)
    (nameV companyV jobTitleV phoneV countryV : JsVal) (tierAmount : String)
    (seats supportHours totalAmountCents : Int)
    (st : Store) (ext : ExtCall) (effs : List Effect) :
    Response × Store × List Effect :=
  let effs := effs ++ [Effect.updateApplication applicant]
  match ext.updateAppErr with
  | some _ => (resp500 "Invoice request failed. Please try again.", st, effs)
  | none =>
    let st1 := { st with applications := (updateAppAt st.applications applicant
      (fun it => { it with
        paymentMethod := some "invoice", paymentStatus := some "pending",
        paymentAmount := some totalAmountCents,
        finalFee := some (parseIntD tierAmount),
        additionalSeats := some seats,
        addonSupportHours := some supportHours,
        company := some companyV, jobTitle := some jobTitleV,
        phone := some phoneV, country := some countryV,
        invoiceRequestedAt := some ext.now,
        enrolled := some false })) }
    let effs := effs ++ [Effect.putStudent "student#ai-accelerator" applicant]
    match ext.putStudentErr with
    | some _ => (resp500 "Invoice request failed. Please try again.", st1, effs)
    | none =>
      let st2 := { st1 with students := (setA st1.students applicant
        (invoiceStudentRecord "student#ai-accelerator" applicant nameV
          companyV jobTitleV phoneV countryV tierAmount seats
          totalAmountCents (some supportHours) ext.now)) }
      match ext.emailErr with
      | some _ => (resp500 "Invoice request failed. Please try again.", st2, effs)
      | none =>
        let st3 := { st2 with invoiceCounter := st2.invoiceCounter + 1 }
        let effs := effs ++ [Effect.emailSend applicant]
        (⟨200, some { success := some true, message := some "Invoice sent! Check your inbox (it should arrive within a few minutes).", enrolled := some false, pendingPayment := some true }⟩, st3, effs)

/-- Embeds the `handler` of variant A (dollar-string tiers, first half of
index.js): OPTIONS short-circuit, required-field checks in source order,
application lookup, already-paid guard, tier parse, seat parse and range
check, pricing, and routing to the payment flow.  A numeric `applicant`
makes the `GetCommand` key invalid and a numeric `finalFee` has no
`.replace`; both throw and land in the top-level catch that answers 500. -/
def handlerA (req : Request) (st : Store) (ext : ExtCall) :
    Response × Store × List Effect :=
  if req.httpMethod == "OPTIONS" then (respond204, st, []) else
  if !(truthy req.applicant) then (resp400 "Applicant email is required.", st, []) else
  if !(truthy req.name) then (resp400 "Name is required.", st, []) else
  if !(truthy req.finalFee) then (resp400 "Final fee is required.", st, []) else
  if !(truthy req.paymentMethod) then (resp400 "Payment method is required.", st, []) else
  if !(req.paymentMethod == JsVal.str "credit-card" || req.paymentMethod == JsVal.str "invoice") then
    (resp400 "Payment method must be \"credit-card\" or \"invoice\".", st, []) else
  if !(truthy req.company) then (resp400 "Company is required.", st, []) else
  if !(truthy req.jobTitle) then (resp400 "Job title is required.", st, []) else
  if !(truthy req.phone) then (resp400 "Phone is required.", st, []) else
  if !(truthy req.country) then (resp400 "Country is required.", st, []) else
  match req.applicant with
  | JsVal.undef => (resp500 "Payment processing failed. Please try again.", st, [])
  | JsVal.num _ => (resp500 "Payment processing failed. Please try again.", st, [])
  | JsVal.str applicant =>
    let effs := [Effect.getApplication applicant]
    if ext.getAppErr then (resp500 "Payment processing failed. Please try again.", st, effs) else
    match lookupA st.applications applicant with
    | none => (resp404 "Application not found. Please apply first.", st, effs)
    | some item =>
      if item.paymentStatus == some "paid" then
        (resp400 (conflictMessage item), st, effs)
      else
        match req.finalFee with
        | JsVal.undef => (resp500 "Payment processing failed. Please try again.", st, effs)
        | JsVal.num _ => (resp500 "Payment processing failed. Please try again.", st, effs)
        | JsVal.str feeString =>
          match parseTierAmount feeString with
          | none => (resp400 "Invalid tier. Must be $6,000, $13,500, $21,000, or $30,000.", st, effs)
          | some tierAmount =>
            let seats := (parseIntJS req.additionalSeats).getD 0
            if seats < 0 || seats > 40 then
              (resp400 "Additional seats must be between 0 and 40.", st, effs)
            else
              let totalAmountCents := totalAmountCentsA (parseIntD tierAmount) seats
              if req.paymentMethod == JsVal.str "credit-card" then
                processCreditCardPaymentAC "student#ai-accelerator" applicant
                  req.name req.company req.jobTitle req.phone req.country
                  tierAmount seats totalAmountCents req.paymentMethodId st ext effs
              else
                processInvoiceRequestAC "student#ai-accelerator" applicant
                  req.name req.company req.jobTitle req.phone req.country
                  tierAmount seats totalAmountCents st ext effs

/-- Embeds the `handler` of the unnamed source file (variant C): identical
to variant A except that there is no already-paid guard between the
application lookup and the tier parse, and the student partition key is
`student#2026-ai-accelerator`. -/
def handlerC (req : Request) (st : Store) (ext : ExtCall) :
    Response × Store × List Effect :=
  if req.httpMethod == "OPTIONS" then (respond204, st, []) else
  if !(truthy req.applicant) then (resp400 "Applicant email is required.", st, []) else
  if !(truthy req.name) then (resp400 "Name is required.", st, []) else
  if !(truthy req.finalFee) then (resp400 "Final fee is required.", st, []) else
  if !(truthy req.paymentMethod) then (resp400 "Payment method is required.", st, []) else
  if !(req.paymentMethod == JsVal.str "credit-card" || req.paymentMethod == JsVal.str "invoice") then
    (resp400 "Payment method must be \"credit-card\" or \"invoice\".", st, []) else
  if !(truthy req.company) then (resp400 "Company is required.", st, []) else
  if !(truthy req.jobTitle) then (resp400 "Job title is required.", st, []) else
  if !(truthy req.phone) then (resp400 "Phone is required.", st, []) else
  if !(truthy req.country) then (resp400 "Country is required.", st, []) else
  match req.applicant with
  | JsVal.undef => (resp500 "Payment processing failed. Please try again.", st, [])
  | JsVal.num _ => (resp500 "Payment processing failed. Please try again.", st, [])
  | JsVal.str applicant =>
    let effs := [Effect.getApplication applicant]
    if ext.getAppErr then (resp500 "Payment processing failed. Please try again.", st, effs) else
    match lookupA st.applications applicant with
    | none => (resp404 "Application not found. Please apply first.", st, effs)
    | some _ =>
      match req.finalFee with
      | JsVal.undef => (resp500 "Payment processing failed. Please try again.", st, effs)
      | JsVal.num _ => (resp500 "Payment processing failed. Please try again.", st, effs)
      | JsVal.str feeString =>
        match parseTierAmount feeString with
        | none => (resp400 "Invalid tier. Must be $6,000, $13,500, $21,000, or $30,000.", st, effs)
        | some tierAmount =>
          let seats := (parseIntJS req.additionalSeats).getD 0
          if seats < 0 || seats > 40 then
            (resp400 "Additional seats must be between 0 and 40.", st, effs)
          else
            let totalAmountCents := totalAmountCentsA (parseIntD tierAmount) seats
            if req.paymentMethod == JsVal.str "credit-card" then
              processCreditCardPaymentAC "student#2026-ai-accelerator" applicant
                req.name req.company req.jobTitle req.phone req.country
                tierAmount seats totalAmountCents req.paymentMethodId st ext effs
            else
              processInvoiceRequestAC "student#2026-ai-accelerator" applicant
                req.name req.company req.jobTitle req.phone req.country
                tierAmount seats totalAmountCents st ext effs

/-- `applicant?.toLowerCase()` on the values the model covers; a number has
no `toLowerCase`, handled separately in `handlerB`. -/
def jsLower : JsVal → JsVal
  | JsVal.undef => JsVal.undef
  | JsVal.str s => JsVal.str (jsToLowerStr s)
  | JsVal.num n => JsVal.num n

/-- The body of variant B after e-mail normalisation: honeypot check, then
the required-field chain, application lookup, already-paid guard, tier
table lookup, seat and support-hour parsing, pricing, and routing. -/
def handlerBvalidate (req : Request) (st : Store) (ext : ExtCall) :
    Response × Store × List Effect :=
  if !(truthy req.applicant) then (resp400 "Applicant email is required.", st, []) else
  if !(truthy req.name) then (resp400 "Name is required.", st, []) else
  if !(truthy req.tier) then (resp400 "Tier is required.", st, []) else
  if !(truthy req.paymentMethod) then (resp400 "Payment method is required.", st, []) else
  if !(req.paymentMethod == JsVal.str "credit-card" || req.paymentMethod == JsVal.str "invoice") then
    (resp400 "Payment method must be \"credit-card\" or \"invoice\".", st, []) else
  if !(truthy req.company) then (resp400 "Company is required.", st, []) else
  if !(truthy req.jobTitle) then (resp400 "Job title is required.", st, []) else
  if !(truthy req.phone) then (resp400 "Phone is required.", st, []) else
  if !(truthy req.country) then (resp400 "Country is required.", st, []) else
  match req.applicant with
  | JsVal.undef => (resp500 "Payment processing failed. Please try again.", st, [])
  | JsVal.num _ => (resp500 "Payment processing failed. Please try again.", st, [])
  | JsVal.str applicant =>
    let effs := [Effect.getApplication applicant]
    if ext.getAppErr then (resp500 "Payment processing failed. Please try again.", st, effs) else
    match lookupA st.applications applicant with
    | none => (resp404 "Application not found. Please apply first.", st, effs)
    | some item =>
      if item.paymentStatus == some "paid" then
        (resp400 (conflictMessage item), st, effs)
      else
        match lookupA validTiersB (jsKey req.tier) with
        | none => (resp400 "Invalid tier. Must be \"scholarship\" or \"vip\".", st, effs)
        | some tierInfo =>
          let tierAmount := tierInfo.tier
          let seats := (parseIntJS req.additionalSeats).getD 0
          if seats < 0 || seats > 40 then
            (resp400 "Additional seats must be between 0 and 40.", st, effs)
          else
            let supportHours := (parseIntJS req.addonSupportHours).getD 0
            if supportHours < 0 || supportHours > 100 then
              (resp400 "Addon support hours must be between 0 and 100.", st, effs)
            else
              let totalAmountCents := totalAmountCentsB (parseIntD tierAmount) seats supportHours
              if req.paymentMethod == JsVal.str "credit-card" then
                processCreditCardPaymentB applicant
                  req.name req.company req.jobTitle req.phone req.country
                  tierAmount seats supportHours totalAmountCents
                  req.paymentMethodId st ext effs
              else
                processInvoiceRequestB applicant
                  req.name req.company req.jobTitle req.phone req.country
                  tierAmount seats supportHours totalAmountCents st ext effs

/-- Honeypot step of variant B: a truthy `mobile` whose trim is non-empty
short-circuits to the generic success message with no further processing;
a truthy numeric `mobile` has no `.trim` and throws (caught as 500). -/
def handlerBrest (req : Request) (st : Store) (ext : ExtCall) :
    Response × Store × List Effect :=
  match req.mobile with
  | JsVal.undef => handlerBvalidate req st ext
  | JsVal.num n =>
      if n == 0 then handlerBvalidate req st ext
      else (resp500 "Payment processing failed. Please try again.", st, [])
  | JsVal.str m =>
      if m == "" then handlerBvalidate req st ext
      else if jsTrim m == "" then handlerBvalidate req st ext
      else (⟨200, some { message := some "Payment successful! Check your email for enrollment confirmation." }⟩, st, [])

/-- Embeds the `handler` of variant B (named tiers, second half of
index.js): OPTIONS short-circuit, then `applicant = applicant?.toLowerCase()`
(a numeric applicant throws there, caught as 500), then `handlerBrest`. -/
def handlerB (req : Request) (st : Store) (ext : ExtCall) :
    Response × Store × List Effect :=
  if req.httpMethod == "OPTIONS" then (respond204, st, []) else
  match req.applicant with
  | JsVal.num _ => (resp500 "Payment processing failed. Please try again.", st, [])
  | a => handlerBrest { req with applicant := jsLower a } st ext

/-- The enrollment-record invariant of the spec's data model, relative to
this request's gateway outcome: base 10 seats, `totalSeats` is base plus
purchased add-ons, and `amountPaid` is zero on the pending invoice path
while the credit-card path records the full amount only when the gateway
reported a succeeded capture. -/
def GoodStudent (gw : GatewayOutcome) (r : StudentRecord) : Prop :=
  r.baseSeats = 10 ∧ r.totalSeats = r.baseSeats + r.additionalSeats ∧
  ((r.paymentMethod = "invoice" ∧ r.paymentStatus = "pending" ∧ r.amountPaid = 0) ∨
   (r.paymentMethod = "credit-card" ∧ r.paymentStatus = "complete" ∧
     r.amountPaid = r.totalAmount ∧ ∃ pid, gw = GatewayOutcome.ok "succeeded" pid))

/-! ### Concrete fixtures used by witnesses and counterexamples -/

/-- An application that has not paid yet. -/
def appUnpaid : ApplicationItem := { email := some "ann@x.com" }

/-- An application already in payment status `paid`. -/
def appPaid : ApplicationItem :=
  { email := some "ann@x.com", paymentStatus := some "paid",
    company := some (JsVal.str "X Corp"), paymentMethod := some "invoice",
    paidAt := some "2025-12-01T00:00:00.000Z" }

def storeUnpaid : Store :=
  { applications := [("ann@x.com", appUnpaid)], students := [], invoiceCounter := 4999 }

def storePaid : Store :=
  { applications := [("ann@x.com", appPaid)], students := [], invoiceCounter := 4999 }

/-- All collaborators succeed; the capture resolves `succeeded`. -/
def extSucceed : ExtCall :=
  { now := "2026-01-02T03:04:05.000Z", gateway := GatewayOutcome.ok "succeeded" "pi_123" }

/-- The capture resolves with a non-success status. -/
def extDeclined : ExtCall :=
  { now := "2026-01-02T03:04:05.000Z",
    gateway := GatewayOutcome.ok "requires_payment_method" "pi_124" }

/-- The capture call throws a generic (non-Stripe-typed) error. -/
def extGenericThrow : ExtCall :=
  { now := "2026-01-02T03:04:05.000Z",
    gateway := GatewayOutcome.err none "socket hang up" }

/-- The capture succeeds but the application `UpdateCommand` throws. -/
def extWriteFail : ExtCall :=
  { now := "2026-01-02T03:04:05.000Z",
    gateway := GatewayOutcome.ok "succeeded" "pi_123",
    updateAppErr := some "socket hang up" }

/-- Everything up to and including both record writes succeeds, then the
confirmation e-mail step throws. -/
def extEmailFail : ExtCall :=
  { now := "2026-01-02T03:04:05.000Z",
    gateway := GatewayOutcome.ok "succeeded" "pi_123",
    emailErr := some "MessageRejected" }

/-- Variant A shaped credit-card request ($13,500 tier, 5 extra seats). -/
def reqCardA : Request :=
  { applicant := JsVal.str "ann@x.com", name := JsVal.str "Ann",
    finalFee := JsVal.str "$13,500", additionalSeats := JsVal.num 5,
    paymentMethod := JsVal.str "credit-card", company := JsVal.str "X Corp",
    jobTitle := JsVal.str "CTO", phone := JsVal.str "+1-212-555-0100",
    country := JsVal.str "United States", paymentMethodId := JsVal.str "pm_card_visa" }

/-- Variant A shaped invoice request ($21,000 tier, 2 extra seats). -/
def reqInvoiceA : Request :=
  { applicant := JsVal.str "ann@x.com", name := JsVal.str "Ann",
    finalFee := JsVal.str "$21,000", additionalSeats := JsVal.num 2,
    paymentMethod := JsVal.str "invoice", company := JsVal.str "X Corp",
    jobTitle := JsVal.str "CTO", phone := JsVal.str "+1-212-555-0100",
    country := JsVal.str "United States" }

/-- Variant B shaped credit-card request (vip tier, 3 seats, 10 hours). -/
def reqCardB : Request :=
  { applicant := JsVal.str "ann@x.com", name := JsVal.str "Ann",
    tier := JsVal.str "vip", additionalSeats := JsVal.num 3,
    addonSupportHours := JsVal.num 10,
    paymentMethod := JsVal.str "credit-card", company := JsVal.str "X Corp",
    jobTitle := JsVal.str "CTO", phone := JsVal.str "+1-212-555-0100",
    country := JsVal.str "United States", paymentMethodId := JsVal.str "pm_card_visa" }

/-- Variant B shaped invoice request (vip tier, 3 seats, 10 hours). -/
def reqInvoiceB : Request := { reqCardB with paymentMethod := JsVal.str "invoice" }

/-- A spam submission: the hidden `mobile` field is filled in. -/
def reqHoneypot : Request := { mobile := JsVal.str "555-1234" }

/-- Variant B invoice request whose seat count is the non-numeric string
`"abc"` (which `parseInt` turns into `NaN`, coerced to 0 by `|| 0`). -/
def reqJunkSeats : Request := { reqInvoiceB with additionalSeats := JsVal.str "abc" }

/-- A request with the tier field present but invalid and the company field
missing (for the validation-order analysis). -/
def reqTierBogusNoCompany : Request :=
  { applicant := JsVal.str "ann@x.com", name := JsVal.str "Ann",
    tier := JsVal.str "bogus", paymentMethod := JsVal.str "invoice",
    jobTitle := JsVal.str "CTO", phone := JsVal.str "+1-212-555-0100",
    country := JsVal.str "United States" }

/-- A variant A/C shaped request record (POST, dollar-string tier selector,
honeypot blank). -/
def mkReqA (aV nmV feeV seatsV pmV coV jtV phV ctV pmidV : JsVal) : Request :=
  { httpMethod := "POST", applicant := aV, name := nmV, finalFee := feeV,
    additionalSeats := seatsV, paymentMethod := pmV, company := coV,
    jobTitle := jtV, phone := phV, country := ctV, paymentMethodId := pmidV,
    mobile := JsVal.undef }

/-- A variant-B shaped request record (POST, named tier selector, honeypot
blank). -/
def mkReqB (aV nmV tierV seatsV hoursV pmV coV jtV phV ctV pmidV : JsVal) : Request :=
  { httpMethod := "POST", applicant := aV, name := nmV, tier := tierV,
    additionalSeats := seatsV, addonSupportHours := hoursV, paymentMethod := pmV,
    company := coV, jobTitle := jtV, phone := phV, country := ctV,
    paymentMethodId := pmidV, mobile := JsVal.undef }

/-! ### Helper lemmas -/

/-- Lookup after insert-or-replace. -/
theorem lookupA_setA {α : Type} (l : List (String × α)) (key k : String) (v : α) :
    lookupA (setA l key v) k = if key = k then some v else lookupA l k := by
  induction l with
  | nil => simp [setA, lookupA]
  | cons hd tl ih =>
    obtain ⟨k0, v0⟩ := hd
    by_cases h : k0 = key
    · subst h
      by_cases hk : k0 = k <;> simp [setA, lookupA, hk]
    · have h2 : ¬ key = k0 := fun hh => h hh.symm
      by_cases hk : k0 = k
      · subst hk
        simp [setA, lookupA, h, h2]
      · simp [setA, lookupA, h, hk, ih]

/-- The credit-card student record satisfies the enrollment invariant when
the gateway reported a succeeded capture. -/
theorem goodStudent_card (pk a : String) (nm co jt ph ct : JsVal) (ta : String)
    (seats cents : Int) (hoursOpt : Option Int) (pid now : String) :
    GoodStudent (GatewayOutcome.ok "succeeded" pid)
      (cardStudentRecord pk a nm co jt ph ct ta seats cents hoursOpt pid now) :=
  ⟨rfl, rfl, Or.inr ⟨rfl, rfl, rfl, pid, rfl⟩⟩

/-- The invoice student record satisfies the enrollment invariant for any
gateway outcome (it records `amountPaid = 0`, `pending`). -/
theorem goodStudent_invoice (gw : GatewayOutcome) (pk a : String) (nm co jt ph ct : JsVal)
    (ta : String) (seats cents : Int) (hoursOpt : Option Int) (now : String) :
    GoodStudent gw (invoiceStudentRecord pk a nm co jt ph ct ta seats cents hoursOpt now) :=
  ⟨rfl, rfl, Or.inl ⟨rfl, rfl, rfl⟩⟩

/-- The A/C credit-card path either leaves the student partition unchanged
or writes exactly the credit-card record, and only under a succeeded capture. -/
theorem processCCAC_students_cases (pk a : String) (nm co jt ph ct : JsVal) (ta : String)
    (seats cents : Int) (pmid : JsVal) (st : Store) (ext : ExtCall) (effs : List Effect) :
    (processCreditCardPaymentAC pk a nm co jt ph ct ta seats cents pmid st ext effs).2.1.students
        = st.students ∨
    (∃ pid, ext.gateway = GatewayOutcome.ok "succeeded" pid ∧
      (processCreditCardPaymentAC pk a nm co jt ph ct ta seats cents pmid st ext effs).2.1.students
        = setA st.students a (cardStudentRecord pk a nm co jt ph ct ta seats cents none pid ext.now)) := by
  unfold processCreditCardPaymentAC
  split
  · exact Or.inl rfl
  · split
    · exact Or.inl rfl
    · rename_i x status pid heq
      split
      · exact Or.inl rfl
      · rename_i hsucc
        have hs : status = "succeeded" := by simpa using hsucc
        subst hs
        split
        · exact Or.inl rfl
        · split
          · exact Or.inl rfl
          · split
            · exact Or.inr ⟨pid, heq, rfl⟩
            · exact Or.inr ⟨pid, heq, rfl⟩

/-- The A/C invoice path either leaves the student partition unchanged or
writes exactly the pending invoice record. -/
theorem processInvAC_students_cases (pk a : String) (nm co jt ph ct : JsVal) (ta : String)
    (seats cents : Int) (st : Store) (ext : ExtCall) (effs : List Effect) :
    (processInvoiceRequestAC pk a nm co jt ph ct ta seats cents st ext effs).2.1.students
        = st.students ∨
    (processInvoiceRequestAC pk a nm co jt ph ct ta seats cents st ext effs).2.1.students
        = setA st.students a (invoiceStudentRecord pk a nm co jt ph ct ta seats cents none ext.now) := by
  unfold processInvoiceRequestAC
  split
  · exact Or.inl rfl
  · split
    · exact Or.inl rfl
    · split
      · exact Or.inr rfl
      · exact Or.inr rfl

/-- Variant B credit-card path, same shape as the A/C case analysis. -/
theorem processCCB_students_cases (a : String) (nm co jt ph ct : JsVal) (ta : String)
    (seats hours cents : Int) (pmid : JsVal) (st : Store) (ext : ExtCall) (effs : List Effect) :
    (processCreditCardPaymentB a nm co jt ph ct ta seats hours cents pmid st ext effs).2.1.students
        = st.students ∨
    (∃ pid, ext.gateway = GatewayOutcome.ok "succeeded" pid ∧
      (processCreditCardPaymentB a nm co jt ph ct ta seats hours cents pmid st ext effs).2.1.students
        = setA st.students a (cardStudentRecord "student#ai-accelerator" a nm co jt ph ct ta seats cents (some hours) pid ext.now)) := by
  unfold processCreditCardPaymentB
  split
  · exact Or.inl rfl
  · split
    · exact Or.inl rfl
    · rename_i x status pid heq
      split
      · exact Or.inl rfl
      · rename_i hsucc
        have hs : status = "succeeded" := by simpa using hsucc
        subst hs
        split
        · exact Or.inl rfl
        · split
          · exact Or.inl rfl
          · split
            · exact Or.inr ⟨pid, heq, rfl⟩
            · exact Or.inr ⟨pid, heq, rfl⟩

/-- Variant B invoice path, same shape as the A/C case analysis. -/
theorem processInvB_students_cases (a : String) (nm co jt ph ct : JsVal) (ta : String)
    (seats hours cents : Int) (st : Store) (ext : ExtCall) (effs : List Effect) :
    (processInvoiceRequestB a nm co jt ph ct ta seats hours cents st ext effs).2.1.students
        = st.students ∨
    (processInvoiceRequestB a nm co jt ph ct ta seats hours cents st ext effs).2.1.students
        = setA st.students a (invoiceStudentRecord "student#ai-accelerator" a nm co jt ph ct ta seats cents (some hours) ext.now) := by
  unfold processInvoiceRequestB
  split
  · exact Or.inl rfl
  · split
    · exact Or.inl rfl
    · split
      · exact Or.inr rfl
      · exact Or.inr rfl

/-- Any student record readable after the A/C credit-card path was either
already there or satisfies the enrollment invariant. -/
theorem processCCAC_studentsLookup (pk a : String) (nm co jt ph ct : JsVal) (ta : String)
    (seats cents : Int) (pmid : JsVal) (st : Store) (ext : ExtCall) (effs : List Effect)
    (k : String) (r : StudentRecord)
    (h : lookupA (processCreditCardPaymentAC pk a nm co jt ph ct ta seats cents pmid
        st ext effs).2.1.students k = some r) :
    lookupA st.students k = some r ∨ GoodStudent ext.gateway r := by
  rcases processCCAC_students_cases pk a nm co jt ph ct ta seats cents pmid st ext effs with
    heq | ⟨pid, hgw, heq⟩
  · rw [heq] at h
    exact Or.inl h
  · rw [heq, lookupA_setA] at h
    by_cases hk : a = k
    · rw [if_pos hk] at h
      injection h with h
      right
      rw [hgw]
      exact h ▸ goodStudent_card pk a nm co jt ph ct ta seats cents none pid ext.now
    · rw [if_neg hk] at h
      exact Or.inl h

/-- Any student record readable after the A/C invoice path was either
already there or satisfies the enrollment invariant. -/
theorem processInvAC_studentsLookup (pk a : String) (nm co jt ph ct : JsVal) (ta : String)
    (seats cents : Int) (st : Store) (ext : ExtCall) (effs : List Effect)
    (k : String) (r : StudentRecord)
    (h : lookupA (processInvoiceRequestAC pk a nm co jt ph ct ta seats cents
        st ext effs).2.1.students k = some r) :
    lookupA st.students k = some r ∨ GoodStudent ext.gateway r := by
  rcases processInvAC_students_cases pk a nm co jt ph ct ta seats cents st ext effs with
    heq | heq
  · rw [heq] at h
    exact Or.inl h
  · rw [heq, lookupA_setA] at h
    by_cases hk : a = k
    · rw [if_pos hk] at h
      injection h with h
      exact Or.inr (h ▸ goodStudent_invoice ext.gateway pk a nm co jt ph ct ta seats cents none ext.now)
    · rw [if_neg hk] at h
      exact Or.inl h

/-- Any student record readable after the B credit-card path was either
already there or satisfies the enrollment invariant. -/
theorem processCCB_studentsLookup (a : String) (nm co jt ph ct : JsVal) (ta : String)
    (seats hours cents : Int) (pmid : JsVal) (st : Store) (ext : ExtCall) (effs : List Effect)
    (k : String) (r : StudentRecord)
    (h : lookupA (processCreditCardPaymentB a nm co jt ph ct ta seats hours cents pmid
        st ext effs).2.1.students k = some r) :
    lookupA st.students k = some r ∨ GoodStudent ext.gateway r := by
  rcases processCCB_students_cases a nm co jt ph ct ta seats hours cents pmid st ext effs with
    heq | ⟨pid, hgw, heq⟩
  · rw [heq] at h
    exact Or.inl h
  · rw [heq, lookupA_setA] at h
    by_cases hk : a = k
    · rw [if_pos hk] at h
      injection h with h
      right
      rw [hgw]
      exact h ▸ goodStudent_card "student#ai-accelerator" a nm co jt ph ct ta seats cents (some hours) pid ext.now
    · rw [if_neg hk] at h
      exact Or.inl h

/-- Any student record readable after the B invoice path was either already
there or satisfies the enrollment invariant. -/
theorem processInvB_studentsLookup (a : String) (nm co jt ph ct : JsVal) (ta : String)
    (seats hours cents : Int) (st : Store) (ext : ExtCall) (effs : List Effect)
    (k : String) (r : StudentRecord)
    (h : lookupA (processInvoiceRequestB a nm co jt ph ct ta seats hours cents
        st ext effs).2.1.students k = some r) :
    lookupA st.students k = some r ∨ GoodStudent ext.gateway r := by
  rcases processInvB_students_cases a nm co jt ph ct ta seats hours cents st ext effs with
    heq | heq
  · rw [heq] at h
    exact Or.inl h
  · rw [heq, lookupA_setA] at h
    by_cases hk : a = k
    · rw [if_pos hk] at h
      injection h with h
      exact Or.inr (h ▸ goodStudent_invoice ext.gateway "student#ai-accelerator" a nm co jt ph ct ta seats cents (some hours) ext.now)
    · rw [if_neg hk] at h
      exact Or.inl h

/-- Handler-level student-record invariant, variant A. -/
theorem handlerA_studentsLookup (req : Request) (st : Store) (ext : ExtCall)
    (k : String) (r : StudentRecord)
    (h : lookupA (handlerA req st ext).2.1.students k = some r) :
    lookupA st.students k = some r ∨ GoodStudent ext.gateway r := by
  unfold handlerA at h
  by_cases c1 : (req.httpMethod == "OPTIONS") = true
  · rw [if_pos c1] at h; exact Or.inl h
  rw [if_neg c1] at h
  by_cases c2 : (!truthy req.applicant) = true
  · rw [if_pos c2] at h; exact Or.inl h
  rw [if_neg c2] at h
  by_cases c3 : (!truthy req.name) = true
  · rw [if_pos c3] at h; exact Or.inl h
  rw [if_neg c3] at h
  by_cases c4 : (!truthy req.finalFee) = true
  · rw [if_pos c4] at h; exact Or.inl h
  rw [if_neg c4] at h
  by_cases c5 : (!truthy req.paymentMethod) = true
  · rw [if_pos c5] at h; exact Or.inl h
  rw [if_neg c5] at h
  by_cases c6 : (!(req.paymentMethod == JsVal.str "credit-card" || req.paymentMethod == JsVal.str "invoice")) = true
  · rw [if_pos c6] at h; exact Or.inl h
  rw [if_neg c6] at h
  by_cases c7 : (!truthy req.company) = true
  · rw [if_pos c7] at h; exact Or.inl h
  rw [if_neg c7] at h
  by_cases c8 : (!truthy req.jobTitle) = true
  · rw [if_pos c8] at h; exact Or.inl h
  rw [if_neg c8] at h
  by_cases c9 : (!truthy req.phone) = true
  · rw [if_pos c9] at h; exact Or.inl h
  rw [if_neg c9] at h
  by_cases c10 : (!truthy req.country) = true
  · rw [if_pos c10] at h; exact Or.inl h
  rw [if_neg c10] at h
  rcases hA : req.applicant with _ | a | n <;> simp only [hA] at h
  · exact Or.inl h
  · repeat' split at h
    all_goals try exact Or.inl h
    · exact processCCAC_studentsLookup _ _ _ _ _ _ _ _ _ _ _ _ _ _ _ _ h
    · exact processInvAC_studentsLookup _ _ _ _ _ _ _ _ _ _ _ _ _ _ _ h
  · exact Or.inl h

/-- Handler-level student-record invariant, variant C. -/
theorem handlerC_studentsLookup (req : Request) (st : Store) (ext : ExtCall)
    (k : String) (r : StudentRecord)
    (h : lookupA (handlerC req st ext).2.1.students k = some r) :
    lookupA st.students k = some r ∨ GoodStudent ext.gateway r := by
  unfold handlerC at h
  by_cases c1 : (req.httpMethod == "OPTIONS") = true
  · rw [if_pos c1] at h; exact Or.inl h
  rw [if_neg c1] at h
  by_cases c2 : (!truthy req.applicant) = true
  · rw [if_pos c2] at h; exact Or.inl h
  rw [if_neg c2] at h
  by_cases c3 : (!truthy req.name) = true
  · rw [if_pos c3] at h; exact Or.inl h
  rw [if_neg c3] at h
  by_cases c4 : (!truthy req.finalFee) = true
  · rw [if_pos c4] at h; exact Or.inl h
  rw [if_neg c4] at h
  by_cases c5 : (!truthy req.paymentMethod) = true
  · rw [if_pos c5] at h; exact Or.inl h
  rw [if_neg c5] at h
  by_cases c6 : (!(req.paymentMethod == JsVal.str "credit-card" || req.paymentMethod == JsVal.str "invoice")) = true
  · rw [if_pos c6] at h; exact Or.inl h
  rw [if_neg c6] at h
  by_cases c7 : (!truthy req.company) = true
  · rw [if_pos c7] at h; exact Or.inl h
  rw [if_neg c7] at h
  by_cases c8 : (!truthy req.jobTitle) = true
  · rw [if_pos c8] at h; exact Or.inl h
  rw [if_neg c8] at h
  by_cases c9 : (!truthy req.phone) = true
  · rw [if_pos c9] at h; exact Or.inl h
  rw [if_neg c9] at h
  by_cases c10 : (!truthy req.country) = true
  · rw [if_pos c10] at h; exact Or.inl h
  rw [if_neg c10] at h
  rcases hA : req.applicant with _ | a | n <;> simp only [hA] at h
  · exact Or.inl h
  · repeat' split at h
    all_goals try exact Or.inl h
    · exact processCCAC_studentsLookup _ _ _ _ _ _ _ _ _ _ _ _ _ _ _ _ h
    · exact processInvAC_studentsLookup _ _ _ _ _ _ _ _ _ _ _ _ _ _ _ h
  · exact Or.inl h

/-- Handler-level student-record invariant, variant B core. -/
theorem handlerBvalidate_studentsLookup (req : Request) (st : Store) (ext : ExtCall)
    (k : String) (r : StudentRecord)
    (h : lookupA (handlerBvalidate req st ext).2.1.students k = some r) :
    lookupA st.students k = some r ∨ GoodStudent ext.gateway r := by
  unfold handlerBvalidate at h
  by_cases c2 : (!truthy req.applicant) = true
  · rw [if_pos c2] at h; exact Or.inl h
  rw [if_neg c2] at h
  by_cases c3 : (!truthy req.name) = true
  · rw [if_pos c3] at h; exact Or.inl h
  rw [if_neg c3] at h
  by_cases c4 : (!truthy req.tier) = true
  · rw [if_pos c4] at h; exact Or.inl h
  rw [if_neg c4] at h
  by_cases c5 : (!truthy req.paymentMethod) = true
  · rw [if_pos c5] at h; exact Or.inl h
  rw [if_neg c5] at h
  by_cases c6 : (!(req.paymentMethod == JsVal.str "credit-card" || req.paymentMethod == JsVal.str "invoice")) = true
  · rw [if_pos c6] at h; exact Or.inl h
  rw [if_neg c6] at h
  by_cases c7 : (!truthy req.company) = true
  · rw [if_pos c7] at h; exact Or.inl h
  rw [if_neg c7] at h
  by_cases c8 : (!truthy req.jobTitle) = true
  · rw [if_pos c8] at h; exact Or.inl h
  rw [if_neg c8] at h
  by_cases c9 : (!truthy req.phone) = true
  · rw [if_pos c9] at h; exact Or.inl h
  rw [if_neg c9] at h
  by_cases c10 : (!truthy req.country) = true
  · rw [if_pos c10] at h; exact Or.inl h
  rw [if_neg c10] at h
  rcases hA : req.applicant with _ | a | n <;> simp only [hA] at h
  · exact Or.inl h
  · repeat' split at h
    all_goals try exact Or.inl h
    · exact processCCB_studentsLookup _ _ _ _ _ _ _ _ _ _ _ _ _ _ _ _ h
    · exact processInvB_studentsLookup _ _ _ _ _ _ _ _ _ _ _ _ _ _ _ h
  · exact Or.inl h

/-- Handler-level student-record invariant, variant B. -/
theorem handlerB_studentsLookup (req : Request) (st : Store) (ext : ExtCall)
    (k : String) (r : StudentRecord)
    (h : lookupA (handlerB req st ext).2.1.students k = some r) :
    lookupA st.students k = some r ∨ GoodStudent ext.gateway r := by
  unfold handlerB handlerBrest at h
  repeat' split at h
  all_goals try exact Or.inl h
  all_goals exact handlerBvalidate_studentsLookup _ _ _ _ _ h

/-! ### Claim theorems -/

/-- C9: every enrollment (student) record created by a run of any handler
variant — i.e. readable afterwards without having been there before —
satisfies `totalSeats = baseSeats (10) + additionalSeats`; the invoice path
writes `amountPaid = 0` with payment status `pending`, and the credit-card
path writes `amountPaid = totalAmount` (the computed total in cents) with
status `complete`, the latter only when the gateway reported a succeeded
capture. -/
theorem claim9_enrollment_record_invariant (req : Request) (st : Store) (ext : ExtCall)
    (k : String) (r : StudentRecord) :
    (lookupA (handlerA req st ext).2.1.students k = some r →
      lookupA st.students k = some r ∨ GoodStudent ext.gateway r) ∧
    (lookupA (handlerB req st ext).2.1.students k = some r →
      lookupA st.students k = some r ∨ GoodStudent ext.gateway r) ∧
    (lookupA (handlerC req st ext).2.1.students k = some r →
      lookupA st.students k = some r ∨ GoodStudent ext.gateway r) :=
  ⟨handlerA_studentsLookup req st ext k r,
   handlerB_studentsLookup req st ext k r,
   handlerC_studentsLookup req st ext k r⟩

/-- Witness for C9 at a concrete successful variant-B credit-card run. -/
theorem claim9_enrollment_record_invariant_witness :
    lookupA storeUnpaid.students "ann@x.com"
        = some (cardStudentRecord "student#ai-accelerator" "ann@x.com"
            (JsVal.str "Ann") (JsVal.str "X Corp") (JsVal.str "CTO")
            (JsVal.str "+1-212-555-0100") (JsVal.str "United States")
            "30000" 3 4200000 (some 10) "pi_123" "2026-01-02T03:04:05.000Z") ∨
    GoodStudent extSucceed.gateway
        (cardStudentRecord "student#ai-accelerator" "ann@x.com"
            (JsVal.str "Ann") (JsVal.str "X Corp") (JsVal.str "CTO")
            (JsVal.str "+1-212-555-0100") (JsVal.str "United States")
            "30000" 3 4200000 (some 10) "pi_123" "2026-01-02T03:04:05.000Z") :=
  (claim9_enrollment_record_invariant reqCardB storeUnpaid extSucceed "ann@x.com" _).2.1
    (by decide)

/-- C1 (amended): in both handler variants of index.js (dollar-string
catalog and named-tier catalog) — though not in the unnamed third variant —
a request whose application is already in payment status `paid` is rejected
with the 400 conflict response carrying the prior-enrollment context, the
store is left unchanged, and no gateway, write, or e-mail effect occurs;
this holds for either payment method and regardless of how the original
payment was made. -/
theorem claim1_paid_guard_amended
    (s : String) (hsne : s ≠ "") (hs : jsToLowerStr s = s)
    (nm ff tr seatsV hoursV pmid co jt ph ct : JsVal) (pm : JsVal)
    (hnm : truthy nm = true) (hff : truthy ff = true) (htr : truthy tr = true)
    (hpm : pm = JsVal.str "credit-card" ∨ pm = JsVal.str "invoice")
    (hco : truthy co = true) (hjt : truthy jt = true)
    (hph : truthy ph = true) (hct : truthy ct = true)
    (st : Store) (ext : ExtCall) (item : ApplicationItem)
    (hget : ext.getAppErr = false)
    (hlook : lookupA st.applications s = some item)
    (hpaid : item.paymentStatus = some "paid") :
    handlerA { httpMethod := "POST", applicant := JsVal.str s, name := nm,
               finalFee := ff, tier := tr, additionalSeats := seatsV,
               addonSupportHours := hoursV, paymentMethod := pm, company := co,
               jobTitle := jt, phone := ph, country := ct,
               paymentMethodId := pmid, mobile := JsVal.undef } st ext
        = (resp400 (conflictMessage item), st, [Effect.getApplication s]) ∧
    handlerB { httpMethod := "POST", applicant := JsVal.str s, name := nm,
               finalFee := ff, tier := tr, additionalSeats := seatsV,
               addonSupportHours := hoursV, paymentMethod := pm, company := co,
               jobTitle := jt, phone := ph, country := ct,
               paymentMethodId := pmid, mobile := JsVal.undef } st ext
        = (resp400 (conflictMessage item), st, [Effect.getApplication s]) := by
  have hstr : truthy (JsVal.str s) = true := by simp [truthy, hsne]
  constructor
  · unfold handlerA
    rcases hpm with h | h <;> subst h <;>
      simp [hstr, hnm, hff, hco, hjt, hph, hct, hget, hlook, hpaid] <;> decide
  · unfold handlerB handlerBrest handlerBvalidate
    rcases hpm with h | h <;> subst h <;>
      simp [jsLower, hs, hstr, hnm, htr, hco, hjt, hph, hct, hget, hlook, hpaid] <;> decide

/-- Witness for the C1 guard at a concrete already-paid resubmission
(cross-method: the original payment was by invoice, the resubmission pays
by credit card). -/
theorem claim1_paid_guard_amended_witness :
    handlerA { httpMethod := "POST", applicant := JsVal.str "ann@x.com",
               name := JsVal.str "Ann", finalFee := JsVal.str "$21,000",
               tier := JsVal.str "vip", additionalSeats := JsVal.num 2,
               addonSupportHours := JsVal.undef,
               paymentMethod := JsVal.str "credit-card",
               company := JsVal.str "X Corp", jobTitle := JsVal.str "CTO",
               phone := JsVal.str "+1-212-555-0100",
               country := JsVal.str "United States",
               paymentMethodId := JsVal.str "pm_card_visa",
               mobile := JsVal.undef } storePaid extSucceed
        = (resp400 (conflictMessage appPaid), storePaid,
            [Effect.getApplication "ann@x.com"]) ∧
    handlerB { httpMethod := "POST", applicant := JsVal.str "ann@x.com",
               name := JsVal.str "Ann", finalFee := JsVal.str "$21,000",
               tier := JsVal.str "vip", additionalSeats := JsVal.num 2,
               addonSupportHours := JsVal.undef,
               paymentMethod := JsVal.str "credit-card",
               company := JsVal.str "X Corp", jobTitle := JsVal.str "CTO",
               phone := JsVal.str "+1-212-555-0100",
               country := JsVal.str "United States",
               paymentMethodId := JsVal.str "pm_card_visa",
               mobile := JsVal.undef } storePaid extSucceed
        = (resp400 (conflictMessage appPaid), storePaid,
            [Effect.getApplication "ann@x.com"]) :=
  claim1_paid_guard_amended "ann@x.com" (by decide) (by decide)
    (JsVal.str "Ann") (JsVal.str "$21,000") (JsVal.str "vip") (JsVal.num 2)
    JsVal.undef (JsVal.str "pm_card_visa") (JsVal.str "X Corp")
    (JsVal.str "CTO") (JsVal.str "+1-212-555-0100") (JsVal.str "United States")
    (JsVal.str "credit-card") (by decide) (by decide) (by decide)
    (Or.inl rfl) (by decide) (by decide) (by decide) (by decide)
    storePaid extSucceed appPaid rfl (by decide) rfl

/-- C1 counterexample: the claim quantifies over every source variant, but
the unnamed variant has no already-paid guard: an invoice resubmission for
an application already in status `paid` is processed — it answers 200,
moves the application to `pending`, and creates a student record. -/
theorem claim1_variantC_counterexample :
    (handlerC reqInvoiceA storePaid extSucceed).1.statusCode = 200 ∧
    (lookupA (handlerC reqInvoiceA storePaid extSucceed).2.1.applications
        "ann@x.com").map ApplicationItem.paymentStatus = some (some "pending") ∧
    (lookupA (handlerC reqInvoiceA storePaid extSucceed).2.1.students
        "ann@x.com").isSome = true := by
  decide

/-- C7 (amended): a request whose hidden `mobile` honeypot field is a
non-blank string is short-circuited by the named-tier handler to HTTP 200
with the credit-card success message text — but the body carries only that
message field, not the `success`/`enrolled`/`paymentId` fields of a real
success — and the store is untouched with no effect at all (no store read
or write, no gateway call, no e-mail). -/
theorem claim7_honeypot_amended (req : Request) (st : Store) (ext : ExtCall)
    (m : String) (hm : req.mobile = JsVal.str m)
    (hne : m ≠ "") (htrm : jsTrim m ≠ "")
    (hhttp : req.httpMethod ≠ "OPTIONS")
    (hap : ∀ n : Int, req.applicant ≠ JsVal.num n) :
    handlerB req st ext
      = (⟨200, some { message := some "Payment successful! Check your email for enrollment confirmation." }⟩, st, []) := by
  have hh : (req.httpMethod == "OPTIONS") = false := by simp [hhttp]
  have h1 : (m == "") = false := by simp [hne]
  have h2 : (jsTrim m == "") = false := by simp [htrm]
  unfold handlerB handlerBrest
  rcases hA : req.applicant with _ | a | n
  · simp [hA, hh, hm, h1, h2]
  · simp [hA, hh, hm, h1, h2]
  · exact absurd hA (hap n)

/-- Witness for the C7 honeypot short-circuit at a concrete spam request. -/
theorem claim7_honeypot_amended_witness :
    handlerB reqHoneypot storeUnpaid extSucceed
      = (⟨200, some { message := some "Payment successful! Check your email for enrollment confirmation." }⟩, storeUnpaid, []) :=
  claim7_honeypot_amended reqHoneypot storeUnpaid extSucceed "555-1234" rfl
    (by decide) (by decide) (by decide) (fun n h => by cases h)

/-- C7 counterexample to the shape clause: the honeypot body is not the
same shape as a real success body — it has no `success` field (and no
`enrolled` field), while a real successful run answers `success = true`. -/
theorem claim7_shape_counterexample :
    (handlerB reqHoneypot storeUnpaid extSucceed).1.statusCode = 200 ∧
    ((handlerB reqHoneypot storeUnpaid extSucceed).1.body.bind RespBody.success) = none ∧
    ((handlerB reqInvoiceB storeUnpaid extSucceed).1.body.bind RespBody.success) = some true ∧
    (handlerB reqHoneypot storeUnpaid extSucceed).1.body
      ≠ (handlerB reqInvoiceB storeUnpaid extSucceed).1.body := by
  decide

/-- C2 (amended): in the named-tier handler, for every catalog tier and
integer seat/hour inputs, the computed total in cents recorded on the
enrollment record equals `(tierBase + (tierBase/10)*seats + 300*hours)*100`
(where `tierBase/10` is exactly `round(tierBase*0.10)` for the catalog
tiers), deterministically; integer inputs outside seats∈[0,40] or
hours∈[0,100] are rejected with the field-specific 400 error — but the
rejection covers only inputs that `parseInt` maps outside those ranges:
non-numeric input is coerced to 0 and accepted rather than rejected. -/
theorem claim2_pricing_amended
    (s : String) (hsne : s ≠ "") (hs : jsToLowerStr s = s)
    (nm co jt ph ct : JsVal)
    (hnm : truthy nm = true) (hco : truthy co = true) (hjt : truthy jt = true)
    (hph : truthy ph = true) (hct : truthy ct = true)
    (tk : String) (ti : TierInfo) (hti : lookupA validTiersB tk = some ti)
    (n hrs : Int)
    (st : Store) (ext : ExtCall) (item : ApplicationItem)
    (hget : ext.getAppErr = false)
    (hlook : lookupA st.applications s = some item)
    (hnp : item.paymentStatus ≠ some "paid")
    (hupd : ext.updateAppErr = none) (hput : ext.putStudentErr = none)
    (hmail : ext.emailErr = none) :
    ((0 ≤ n ∧ n ≤ 40 ∧ 0 ≤ hrs ∧ hrs ≤ 100) →
      (handlerB (mkReqB (JsVal.str s) nm (JsVal.str tk) (JsVal.num n) (JsVal.num hrs)
          (JsVal.str "invoice") co jt ph ct JsVal.undef) st ext).1.statusCode = 200 ∧
      (lookupA (handlerB (mkReqB (JsVal.str s) nm (JsVal.str tk) (JsVal.num n) (JsVal.num hrs)
          (JsVal.str "invoice") co jt ph ct JsVal.undef) st ext).2.1.students s).map
            StudentRecord.totalAmount
        = some (totalAmountCentsB (parseIntD ti.tier) n hrs)) ∧
    ((n < 0 ∨ n > 40) →
      handlerB (mkReqB (JsVal.str s) nm (JsVal.str tk) (JsVal.num n) (JsVal.num hrs)
          (JsVal.str "invoice") co jt ph ct JsVal.undef) st ext
        = (resp400 "Additional seats must be between 0 and 40.", st, [Effect.getApplication s])) ∧
    ((0 ≤ n ∧ n ≤ 40) → (hrs < 0 ∨ hrs > 100) →
      handlerB (mkReqB (JsVal.str s) nm (JsVal.str tk) (JsVal.num n) (JsVal.num hrs)
          (JsVal.str "invoice") co jt ph ct JsVal.undef) st ext
        = (resp400 "Addon support hours must be between 0 and 100.", st, [Effect.getApplication s])) := by
  have hstr : truthy (JsVal.str s) = true := by simp [truthy, hsne]
  have htkne : tk ≠ "" := by
    intro h
    subst h
    simp [validTiersB, lookupA] at hti
  have htk : truthy (JsVal.str tk) = true := by simp [truthy, htkne]
  have hnp2 : (item.paymentStatus == some "paid") = false := by simp [hnp]
  have hpmlit : truthy (JsVal.str "invoice") = true := by decide
  refine ⟨fun hbounds => ?_, fun hout => ?_, fun hin hout => ?_⟩
  · obtain ⟨h1, h2, h3, h4⟩ := hbounds
    have hseats : (decide (n < 0) || decide (n > 40)) = false := by
      simp only [Bool.or_eq_false_iff, decide_eq_false_iff_not]
      omega
    have hhrs : (decide (hrs < 0) || decide (hrs > 100)) = false := by
      simp only [Bool.or_eq_false_iff, decide_eq_false_iff_not]
      omega
    unfold handlerB handlerBrest handlerBvalidate processInvoiceRequestB mkReqB
    constructor
    · simp [jsLower, hs, hstr, hnm, htk, hpmlit, hco, hjt, hph, hct, hget, hlook, hnp2, hti,
            jsKey, parseIntJS, hupd, hput, hmail, hseats, hhrs]
    · simp [jsLower, hs, hstr, hnm, htk, hpmlit, hco, hjt, hph, hct, hget, hlook, hnp2, hti,
            jsKey, parseIntJS, hupd, hput, hmail, hseats, hhrs, lookupA_setA,
            invoiceStudentRecord]
  · have hseats : (decide (n < 0) || decide (n > 40)) = true := by
      rcases hout with h | h <;> simp [h]
    unfold handlerB handlerBrest handlerBvalidate mkReqB
    simp [jsLower, hs, hstr, hnm, htk, hpmlit, hco, hjt, hph, hct, hget, hlook, hnp2, hti,
          jsKey, parseIntJS, hseats]
  · have hseats : (decide (n < 0) || decide (n > 40)) = false := by
      simp only [Bool.or_eq_false_iff, decide_eq_false_iff_not]
      omega
    have hhrs : (decide (hrs < 0) || decide (hrs > 100)) = true := by
      rcases hout with h | h <;> simp [h]
    unfold handlerB handlerBrest handlerBvalidate mkReqB
    simp [jsLower, hs, hstr, hnm, htk, hpmlit, hco, hjt, hph, hct, hget, hlook, hnp2, hti,
          jsKey, parseIntJS, hseats, hhrs]

/-- Witness for the C2 pricing formula at vip + 3 seats + 10 hours:
total = (30000 + 3000*3 + 300*10) * 100 = 4200000 cents. -/
theorem claim2_pricing_amended_witness :
    (handlerB (mkReqB (JsVal.str "ann@x.com") (JsVal.str "Ann") (JsVal.str "vip")
        (JsVal.num 3) (JsVal.num 10) (JsVal.str "invoice") (JsVal.str "X Corp")
        (JsVal.str "CTO") (JsVal.str "+1") (JsVal.str "US") JsVal.undef)
        storeUnpaid extSucceed).1.statusCode = 200 ∧
    (lookupA (handlerB (mkReqB (JsVal.str "ann@x.com") (JsVal.str "Ann") (JsVal.str "vip")
        (JsVal.num 3) (JsVal.num 10) (JsVal.str "invoice") (JsVal.str "X Corp")
        (JsVal.str "CTO") (JsVal.str "+1") (JsVal.str "US") JsVal.undef)
        storeUnpaid extSucceed).2.1.students "ann@x.com").map StudentRecord.totalAmount
      = some (totalAmountCentsB (parseIntD ({ tier := "30000", fee := "$30,000", seatCost := "$3,000", tierName := some "VIP" } : TierInfo).tier) 3 10) :=
  (claim2_pricing_amended "ann@x.com" (by decide) (by decide)
    (JsVal.str "Ann") (JsVal.str "X Corp") (JsVal.str "CTO") (JsVal.str "+1")
    (JsVal.str "US") (by decide) (by decide) (by decide) (by decide) (by decide)
    "vip" { tier := "30000", fee := "$30,000", seatCost := "$3,000", tierName := some "VIP" }
    (by decide) 3 10 storeUnpaid extSucceed appUnpaid rfl (by decide) (by decide)
    rfl rfl rfl).1 (by decide)

/-- C2 counterexample: a non-numeric seats input is neither an integer in
[0,40] nor rejected — `parseInt("abc") || 0` coerces it to 0 and the
request is accepted (200, enrollment written with 0 additional seats),
contradicting the claim that no other inputs are accepted. -/
theorem claim2_junk_seats_counterexample :
    (handlerB reqJunkSeats storeUnpaid extSucceed).1.statusCode = 200 ∧
    (lookupA (handlerB reqJunkSeats storeUnpaid extSucceed).2.1.students
        "ann@x.com").map StudentRecord.additionalSeats = some 0 ∧
    (lookupA (handlerB reqJunkSeats storeUnpaid extSucceed).2.1.students
        "ann@x.com").map StudentRecord.totalAmount = some 3300000 := by
  decide

/-- C10: the named-tier handler lower-cases the applicant e-mail before any
further processing, so two submissions that differ only in the letter case
of the applicant e-mail produce identical results — same response, same
final store (hence same record keys), same effect trace. -/
theorem claim10_email_case_insensitive (r : Request) (s1 s2 : String)
    (h : jsToLowerStr s1 = jsToLowerStr s2) (st : Store) (ext : ExtCall) :
    handlerB { r with applicant := JsVal.str s1 } st ext
      = handlerB { r with applicant := JsVal.str s2 } st ext := by
  unfold handlerB
  dsimp only
  rw [jsLower, jsLower, h]

/-- Witness for C10 at a concrete pair of case-variant e-mails. -/
theorem claim10_email_case_insensitive_witness :
    handlerB { reqInvoiceB with applicant := JsVal.str "Ann@X.com" } storeUnpaid extSucceed
      = handlerB { reqInvoiceB with applicant := JsVal.str "ann@x.com" } storeUnpaid extSucceed :=
  claim10_email_case_insensitive reqInvoiceB "Ann@X.com" "ann@x.com" (by decide)
    storeUnpaid extSucceed

/-- C8 counterexample: the pricing computation tracks whole dollars, not
cents — the seat-surcharge intermediate for the $6,000 tier is the integer
600 (dollars) and the running total for one extra seat is 6600 (dollars),
different from the cents total 660000, which is produced only by the final
multiplication by 100.  So amounts are not integer minor units throughout
the computation. -/
theorem claim8_units_counterexample :
    seatPriceDollars 6000 = 600 ∧
    totalAmountDollarsA 6000 1 = 6600 ∧
    totalAmountCentsA 6000 1 = 660000 ∧
    totalAmountDollarsA 6000 1 ≠ totalAmountCentsA 6000 1 := by
  decide

/-- C8 (amended): the pricing computation tracks exact integers in whole
dollars (tier base, seat surcharge, support surcharge, running total) — the
binary64 arithmetic of the source is exact on the whole catalog input
domain, so no drift occurs — and converts to integer cents in one final
multiplication; for every catalog tier and in-range seat/hour counts the
cents value charged to the gateway and recorded as the enrollment
`amountPaid` equals the exact minor-unit formula
`tierBase*100 + tierBase*10*seats + 30000*hours`. -/
theorem claim8_cents_amended
    (s : String) (hsne : s ≠ "") (hs : jsToLowerStr s = s)
    (nm co jt ph ct pmid : JsVal)
    (hnm : truthy nm = true) (hco : truthy co = true) (hjt : truthy jt = true)
    (hph : truthy ph = true) (hct : truthy ct = true) (hpmid : truthy pmid = true)
    (tk : String) (ti : TierInfo) (hti : lookupA validTiersB tk = some ti)
    (n hrs : Int) (hn0 : 0 ≤ n) (hn1 : n ≤ 40) (hh0 : 0 ≤ hrs) (hh1 : hrs ≤ 100)
    (st : Store) (ext : ExtCall) (item : ApplicationItem) (pid : String)
    (hget : ext.getAppErr = false)
    (hlook : lookupA st.applications s = some item)
    (hnp : item.paymentStatus ≠ some "paid")
    (hgw : ext.gateway = GatewayOutcome.ok "succeeded" pid)
    (hupd : ext.updateAppErr = none) (hput : ext.putStudentErr = none)
    (hmail : ext.emailErr = none) :
    totalAmountCentsB (parseIntD ti.tier) n hrs
      = parseIntD ti.tier * 100 + parseIntD ti.tier * 10 * n + 30000 * hrs ∧
    (handlerB (mkReqB (JsVal.str s) nm (JsVal.str tk) (JsVal.num n) (JsVal.num hrs)
        (JsVal.str "credit-card") co jt ph ct pmid) st ext).2.2.filter Effect.isCharge
      = [Effect.charge (totalAmountCentsB (parseIntD ti.tier) n hrs)] ∧
    (lookupA (handlerB (mkReqB (JsVal.str s) nm (JsVal.str tk) (JsVal.num n) (JsVal.num hrs)
        (JsVal.str "credit-card") co jt ph ct pmid) st ext).2.1.students s).map
          StudentRecord.amountPaid
      = some (totalAmountCentsB (parseIntD ti.tier) n hrs) := by
  have hstr : truthy (JsVal.str s) = true := by simp [truthy, hsne]
  have htkne : tk ≠ "" := by
    intro hx
    subst hx
    simp [validTiersB, lookupA] at hti
  have htk : truthy (JsVal.str tk) = true := by simp [truthy, htkne]
  have hnp2 : (item.paymentStatus == some "paid") = false := by simp [hnp]
  have hpmlit : truthy (JsVal.str "credit-card") = true := by decide
  have hseats : (decide (n < 0) || decide (n > 40)) = false := by
    simp only [Bool.or_eq_false_iff, decide_eq_false_iff_not]
    omega
  have hhrs : (decide (hrs < 0) || decide (hrs > 100)) = false := by
    simp only [Bool.or_eq_false_iff, decide_eq_false_iff_not]
    omega
  have hcase : parseIntD ti.tier = 6000 ∨ parseIntD ti.tier = 30000 := by
    simp only [validTiersB, lookupA] at hti
    split at hti
    · injection hti with hti
      subst hti
      left
      decide
    · split at hti
      · injection hti with hti
        subst hti
        right
        decide
      · cases hti
  refine ⟨?_, ?_, ?_⟩
  · rcases hcase with hcv | hcv <;> rw [hcv] <;>
      simp [totalAmountCentsB, totalAmountDollarsB, seatPriceDollars] <;> ring
  · unfold handlerB handlerBrest handlerBvalidate processCreditCardPaymentB mkReqB
    simp [jsLower, hs, hstr, hnm, htk, hpmlit, hco, hjt, hph, hct, hpmid, hget, hlook,
          hnp2, hti, jsKey, parseIntJS, hgw, hupd, hput, hmail, hseats, hhrs,
          List.filter, Effect.isCharge]
  · unfold handlerB handlerBrest handlerBvalidate processCreditCardPaymentB mkReqB
    simp [jsLower, hs, hstr, hnm, htk, hpmlit, hco, hjt, hph, hct, hpmid, hget, hlook,
          hnp2, hti, jsKey, parseIntJS, hgw, hupd, hput, hmail, hseats, hhrs,
          lookupA_setA, cardStudentRecord]

/-- Witness for the C8 amended cents formula at vip + 3 seats + 10 hours:
30000*100 + 30000*10*3 + 30000*10 = 4200000 cents charged and recorded. -/
theorem claim8_cents_amended_witness :
    totalAmountCentsB (parseIntD ({ tier := "30000", fee := "$30,000", seatCost := "$3,000", tierName := some "VIP" } : TierInfo).tier) 3 10
      = parseIntD ({ tier := "30000", fee := "$30,000", seatCost := "$3,000", tierName := some "VIP" } : TierInfo).tier * 100
        + parseIntD ({ tier := "30000", fee := "$30,000", seatCost := "$3,000", tierName := some "VIP" } : TierInfo).tier * 10 * 3
        + 30000 * 10 ∧
    (handlerB (mkReqB (JsVal.str "ann@x.com") (JsVal.str "Ann") (JsVal.str "vip")
        (JsVal.num 3) (JsVal.num 10) (JsVal.str "credit-card") (JsVal.str "X Corp")
        (JsVal.str "CTO") (JsVal.str "+1") (JsVal.str "US") (JsVal.str "pm_card_visa"))
        storeUnpaid extSucceed).2.2.filter Effect.isCharge
      = [Effect.charge (totalAmountCentsB (parseIntD ({ tier := "30000", fee := "$30,000", seatCost := "$3,000", tierName := some "VIP" } : TierInfo).tier) 3 10)] ∧
    (lookupA (handlerB (mkReqB (JsVal.str "ann@x.com") (JsVal.str "Ann") (JsVal.str "vip")
        (JsVal.num 3) (JsVal.num 10) (JsVal.str "credit-card") (JsVal.str "X Corp")
        (JsVal.str "CTO") (JsVal.str "+1") (JsVal.str "US") (JsVal.str "pm_card_visa"))
        storeUnpaid extSucceed).2.1.students "ann@x.com").map StudentRecord.amountPaid
      = some (totalAmountCentsB (parseIntD ({ tier := "30000", fee := "$30,000", seatCost := "$3,000", tierName := some "VIP" } : TierInfo).tier) 3 10) :=
  claim8_cents_amended "ann@x.com" (by decide) (by decide)
    (JsVal.str "Ann") (JsVal.str "X Corp") (JsVal.str "CTO") (JsVal.str "+1")
    (JsVal.str "US") (JsVal.str "pm_card_visa") (by decide) (by decide) (by decide)
    (by decide) (by decide) (by decide)
    "vip" { tier := "30000", fee := "$30,000", seatCost := "$3,000", tierName := some "VIP" }
    (by decide) 3 10 (by decide) (by decide) (by decide) (by decide)
    storeUnpaid extSucceed appUnpaid "pi_123" rfl (by decide) (by decide) rfl rfl rfl rfl

/-- If the gateway does not resolve `succeeded` (non-success status or a
thrown error), the A/C credit-card path answers 400 and leaves the entire
store unchanged, having attempted only the charge. -/
theorem processCCAC_declined (pk a : String) (nm co jt ph ct : JsVal) (ta : String)
    (seats cents : Int) (pmid : JsVal) (st : Store) (ext : ExtCall) (effs : List Effect)
    (hpmid : truthy pmid = true)
    (hgwf : ∀ pid, ext.gateway ≠ GatewayOutcome.ok "succeeded" pid) :
    (processCreditCardPaymentAC pk a nm co jt ph ct ta seats cents pmid st ext effs).1.statusCode = 400 ∧
    (processCreditCardPaymentAC pk a nm co jt ph ct ta seats cents pmid st ext effs).2.1 = st ∧
    (processCreditCardPaymentAC pk a nm co jt ph ct ta seats cents pmid st ext effs).2.2
      = effs ++ [Effect.charge cents] := by
  unfold processCreditCardPaymentAC
  rcases hg : ext.gateway with ⟨status, pid⟩ | ⟨ty, msg⟩
  · have hne : (status == "succeeded") = false := by
      have h2 := hgwf pid
      rw [hg] at h2
      simp only [ne_eq, GatewayOutcome.ok.injEq, not_and] at h2
      simp only [beq_eq_false_iff_ne, ne_eq]
      exact fun hsx => h2 hsx trivial
    simp [hpmid, hg, hne]
  · simp [hpmid, hg, stripeCatch]

/-- Variant-B analogue of the declined-capture case analysis. -/
theorem processCCB_declined (a : String) (nm co jt ph ct : JsVal) (ta : String)
    (seats hours cents : Int) (pmid : JsVal) (st : Store) (ext : ExtCall) (effs : List Effect)
    (hpmid : truthy pmid = true)
    (hgwf : ∀ pid, ext.gateway ≠ GatewayOutcome.ok "succeeded" pid) :
    (processCreditCardPaymentB a nm co jt ph ct ta seats hours cents pmid st ext effs).1.statusCode = 400 ∧
    (processCreditCardPaymentB a nm co jt ph ct ta seats hours cents pmid st ext effs).2.1 = st ∧
    (processCreditCardPaymentB a nm co jt ph ct ta seats hours cents pmid st ext effs).2.2
      = effs ++ [Effect.charge cents] := by
  unfold processCreditCardPaymentB
  rcases hg : ext.gateway with ⟨status, pid⟩ | ⟨ty, msg⟩
  · have hne : (status == "succeeded") = false := by
      have h2 := hgwf pid
      rw [hg] at h2
      simp only [ne_eq, GatewayOutcome.ok.injEq, not_and] at h2
      simp only [beq_eq_false_iff_ne, ne_eq]
      exact fun hsx => h2 hsx trivial
    simp [hpmid, hg, hne]
  · simp [hpmid, hg, stripeCatch]

/-- C3: on the credit-card path of both index.js handler variants, whenever
the gateway outcome is not a succeeded capture (non-success status, or the
call throws), the handler answers 400, the store — Application and
EnrollmentRecord included — is exactly the pre-request store, and the
effect trace contains no store write at all: no partial write happens
before the gateway outcome is known. -/
theorem claim3_decline_no_write
    (s : String) (hsne : s ≠ "") (hs : jsToLowerStr s = s)
    (nm co jt ph ct pmid : JsVal)
    (hnm : truthy nm = true) (hco : truthy co = true) (hjt : truthy jt = true)
    (hph : truthy ph = true) (hct : truthy ct = true) (hpmid : truthy pmid = true)
    (f ta : String) (hfne : f ≠ "") (hta : parseTierAmount f = some ta)
    (tk : String) (ti : TierInfo) (hti : lookupA validTiersB tk = some ti)
    (n hrs : Int) (hn0 : 0 ≤ n) (hn1 : n ≤ 40) (hh0 : 0 ≤ hrs) (hh1 : hrs ≤ 100)
    (st : Store) (ext : ExtCall) (item : ApplicationItem)
    (hget : ext.getAppErr = false)
    (hlook : lookupA st.applications s = some item)
    (hnp : item.paymentStatus ≠ some "paid")
    (hgwf : ∀ pid, ext.gateway ≠ GatewayOutcome.ok "succeeded" pid) :
    ((handlerA (mkReqA (JsVal.str s) nm (JsVal.str f) (JsVal.num n)
        (JsVal.str "credit-card") co jt ph ct pmid) st ext).1.statusCode = 400 ∧
     (handlerA (mkReqA (JsVal.str s) nm (JsVal.str f) (JsVal.num n)
        (JsVal.str "credit-card") co jt ph ct pmid) st ext).2.1 = st ∧
     (handlerA (mkReqA (JsVal.str s) nm (JsVal.str f) (JsVal.num n)
        (JsVal.str "credit-card") co jt ph ct pmid) st ext).2.2.filter Effect.isWrite = []) ∧
    ((handlerB (mkReqB (JsVal.str s) nm (JsVal.str tk) (JsVal.num n) (JsVal.num hrs)
        (JsVal.str "credit-card") co jt ph ct pmid) st ext).1.statusCode = 400 ∧
     (handlerB (mkReqB (JsVal.str s) nm (JsVal.str tk) (JsVal.num n) (JsVal.num hrs)
        (JsVal.str "credit-card") co jt ph ct pmid) st ext).2.1 = st ∧
     (handlerB (mkReqB (JsVal.str s) nm (JsVal.str tk) (JsVal.num n) (JsVal.num hrs)
        (JsVal.str "credit-card") co jt ph ct pmid) st ext).2.2.filter Effect.isWrite = []) := by
  have hstr : truthy (JsVal.str s) = true := by simp [truthy, hsne]
  have hfstr : truthy (JsVal.str f) = true := by simp [truthy, hfne]
  have htkne : tk ≠ "" := by
    intro hx
    subst hx
    simp [validTiersB, lookupA] at hti
  have htk : truthy (JsVal.str tk) = true := by simp [truthy, htkne]
  have hnp2 : (item.paymentStatus == some "paid") = false := by simp [hnp]
  have hcclit : truthy (JsVal.str "credit-card") = true := by decide
  have hseats : (decide (n < 0) || decide (n > 40)) = false := by
    simp only [Bool.or_eq_false_iff, decide_eq_false_iff_not]
    omega
  have hhrs : (decide (hrs < 0) || decide (hrs > 100)) = false := by
    simp only [Bool.or_eq_false_iff, decide_eq_false_iff_not]
    omega
  have hA : handlerA (mkReqA (JsVal.str s) nm (JsVal.str f) (JsVal.num n)
        (JsVal.str "credit-card") co jt ph ct pmid) st ext
      = processCreditCardPaymentAC "student#ai-accelerator" s nm co jt ph ct ta n
          (totalAmountCentsA (parseIntD ta) n) pmid st ext [Effect.getApplication s] := by
    unfold handlerA mkReqA
    simp [hstr, hnm, hfstr, hcclit, hco, hjt, hph, hct, hget, hlook, hnp2, hta,
          parseIntJS, hseats]
  have hB : handlerB (mkReqB (JsVal.str s) nm (JsVal.str tk) (JsVal.num n) (JsVal.num hrs)
        (JsVal.str "credit-card") co jt ph ct pmid) st ext
      = processCreditCardPaymentB s nm co jt ph ct ti.tier n hrs
          (totalAmountCentsB (parseIntD ti.tier) n hrs) pmid st ext [Effect.getApplication s] := by
    unfold handlerB handlerBrest handlerBvalidate mkReqB
    simp [jsLower, hs, hstr, hnm, htk, hcclit, hco, hjt, hph, hct, hget, hlook, hnp2,
          hti, jsKey, parseIntJS, hseats, hhrs]
  obtain ⟨dA1, dA2, dA3⟩ := processCCAC_declined "student#ai-accelerator" s nm co jt ph ct ta n
    (totalAmountCentsA (parseIntD ta) n) pmid st ext [Effect.getApplication s] hpmid hgwf
  obtain ⟨dB1, dB2, dB3⟩ := processCCB_declined s nm co jt ph ct ti.tier n hrs
    (totalAmountCentsB (parseIntD ti.tier) n hrs) pmid st ext [Effect.getApplication s] hpmid hgwf
  refine ⟨⟨?_, ?_, ?_⟩, ⟨?_, ?_, ?_⟩⟩
  · rw [hA]; exact dA1
  · rw [hA]; exact dA2
  · rw [hA, dA3]; simp [Effect.isWrite]
  · rw [hB]; exact dB1
  · rw [hB]; exact dB2
  · rw [hB, dB3]; simp [Effect.isWrite]

/-- Witness for C3 at a concrete declined capture (`requires_payment_method`). -/
theorem claim3_decline_no_write_witness :
    ((handlerA (mkReqA (JsVal.str "ann@x.com") (JsVal.str "Ann") (JsVal.str "$13,500")
        (JsVal.num 5) (JsVal.str "credit-card") (JsVal.str "X Corp") (JsVal.str "CTO")
        (JsVal.str "+1") (JsVal.str "US") (JsVal.str "pm_card_visa"))
        storeUnpaid extDeclined).1.statusCode = 400 ∧
     (handlerA (mkReqA (JsVal.str "ann@x.com") (JsVal.str "Ann") (JsVal.str "$13,500")
        (JsVal.num 5) (JsVal.str "credit-card") (JsVal.str "X Corp") (JsVal.str "CTO")
        (JsVal.str "+1") (JsVal.str "US") (JsVal.str "pm_card_visa"))
        storeUnpaid extDeclined).2.1 = storeUnpaid ∧
     (handlerA (mkReqA (JsVal.str "ann@x.com") (JsVal.str "Ann") (JsVal.str "$13,500")
        (JsVal.num 5) (JsVal.str "credit-card") (JsVal.str "X Corp") (JsVal.str "CTO")
        (JsVal.str "+1") (JsVal.str "US") (JsVal.str "pm_card_visa"))
        storeUnpaid extDeclined).2.2.filter Effect.isWrite = []) ∧
    ((handlerB (mkReqB (JsVal.str "ann@x.com") (JsVal.str "Ann") (JsVal.str "vip")
        (JsVal.num 5) (JsVal.num 0) (JsVal.str "credit-card") (JsVal.str "X Corp")
        (JsVal.str "CTO") (JsVal.str "+1") (JsVal.str "US") (JsVal.str "pm_card_visa"))
        storeUnpaid extDeclined).1.statusCode = 400 ∧
     (handlerB (mkReqB (JsVal.str "ann@x.com") (JsVal.str "Ann") (JsVal.str "vip")
        (JsVal.num 5) (JsVal.num 0) (JsVal.str "credit-card") (JsVal.str "X Corp")
        (JsVal.str "CTO") (JsVal.str "+1") (JsVal.str "US") (JsVal.str "pm_card_visa"))
        storeUnpaid extDeclined).2.1 = storeUnpaid ∧
     (handlerB (mkReqB (JsVal.str "ann@x.com") (JsVal.str "Ann") (JsVal.str "vip")
        (JsVal.num 5) (JsVal.num 0) (JsVal.str "credit-card") (JsVal.str "X Corp")
        (JsVal.str "CTO") (JsVal.str "+1") (JsVal.str "US") (JsVal.str "pm_card_visa"))
        storeUnpaid extDeclined).2.2.filter Effect.isWrite = []) :=
  claim3_decline_no_write "ann@x.com" (by decide) (by decide)
    (JsVal.str "Ann") (JsVal.str "X Corp") (JsVal.str "CTO") (JsVal.str "+1")
    (JsVal.str "US") (JsVal.str "pm_card_visa") (by decide) (by decide) (by decide)
    (by decide) (by decide) (by decide)
    "$13,500" "13500" (by decide) (by decide)
    "vip" { tier := "30000", fee := "$30,000", seatCost := "$3,000", tierName := some "VIP" }
    (by decide) 5 0 (by decide) (by decide) (by decide) (by decide)
    storeUnpaid extDeclined appUnpaid rfl (by decide) (by decide)
    (fun pid h => by simp [extDeclined] at h)

/-- C4 counterexample: with both record writes completed and the e-mail
step throwing, the credit-card path answers 400 — not the 200 success the
claim requires — while the mutation does persist (student record present). -/
theorem claim4_email_failure_counterexample :
    (handlerA reqCardA storeUnpaid extEmailFail).1.statusCode = 400 ∧
    ((handlerA reqCardA storeUnpaid extEmailFail).1.body.bind RespBody.success) = none ∧
    (lookupA (handlerA reqCardA storeUnpaid extEmailFail).2.1.students
        "ann@x.com").isSome = true ∧
    (lookupA (handlerA reqCardA storeUnpaid extEmailFail).2.1.applications
        "ann@x.com").map ApplicationItem.paymentStatus = some (some "paid") := by
  decide

/-- C4 (amended): a failure of the post-mutation e-mail/render step does
not reverse the mutation — the Application stays `paid` (card) or
`pending` (invoice) and the student record remains — but it does change
the user-visible response: the catch block downgrades it to the generic
400 processing error on the credit-card path and to the 500 invoice error
on the invoice path, instead of the 200 success. -/
theorem claim4_email_failure_amended
    (s : String) (hsne : s ≠ "")
    (nm co jt ph ct pmid : JsVal)
    (hnm : truthy nm = true) (hco : truthy co = true) (hjt : truthy jt = true)
    (hph : truthy ph = true) (hct : truthy ct = true) (hpmid : truthy pmid = true)
    (f ta : String) (hfne : f ≠ "") (hta : parseTierAmount f = some ta)
    (n : Int) (hn0 : 0 ≤ n) (hn1 : n ≤ 40)
    (st : Store) (ext : ExtCall) (item : ApplicationItem) (pid : String) (m : String)
    (hget : ext.getAppErr = false)
    (hlook : lookupA st.applications s = some item)
    (hnp : item.paymentStatus ≠ some "paid")
    (hgw : ext.gateway = GatewayOutcome.ok "succeeded" pid)
    (hupd : ext.updateAppErr = none) (hput : ext.putStudentErr = none)
    (hmail : ext.emailErr = some m) :
    ((handlerA (mkReqA (JsVal.str s) nm (JsVal.str f) (JsVal.num n)
        (JsVal.str "credit-card") co jt ph ct pmid) st ext).1
      = ⟨400, some { error := some "Payment processing failed.", details := some m }⟩ ∧
     (lookupA (handlerA (mkReqA (JsVal.str s) nm (JsVal.str f) (JsVal.num n)
        (JsVal.str "credit-card") co jt ph ct pmid) st ext).2.1.applications s).map
          ApplicationItem.paymentStatus = some (some "paid") ∧
     lookupA (handlerA (mkReqA (JsVal.str s) nm (JsVal.str f) (JsVal.num n)
        (JsVal.str "credit-card") co jt ph ct pmid) st ext).2.1.students s
      = some (cardStudentRecord "student#ai-accelerator" s nm co jt ph ct ta n
          (totalAmountCentsA (parseIntD ta) n) none pid ext.now)) ∧
    ((handlerA (mkReqA (JsVal.str s) nm (JsVal.str f) (JsVal.num n)
        (JsVal.str "invoice") co jt ph ct pmid) st ext).1
      = resp500 "Invoice request failed. Please try again." ∧
     (lookupA (handlerA (mkReqA (JsVal.str s) nm (JsVal.str f) (JsVal.num n)
        (JsVal.str "invoice") co jt ph ct pmid) st ext).2.1.applications s).map
          ApplicationItem.paymentStatus = some (some "pending") ∧
     lookupA (handlerA (mkReqA (JsVal.str s) nm (JsVal.str f) (JsVal.num n)
        (JsVal.str "invoice") co jt ph ct pmid) st ext).2.1.students s
      = some (invoiceStudentRecord "student#ai-accelerator" s nm co jt ph ct ta n
          (totalAmountCentsA (parseIntD ta) n) none ext.now)) := by
  have hstr : truthy (JsVal.str s) = true := by simp [truthy, hsne]
  have hfstr : truthy (JsVal.str f) = true := by simp [truthy, hfne]
  have hnp2 : (item.paymentStatus == some "paid") = false := by simp [hnp]
  have hcclit : truthy (JsVal.str "credit-card") = true := by decide
  have hinvlit : truthy (JsVal.str "invoice") = true := by decide
  have hseats : (decide (n < 0) || decide (n > 40)) = false := by
    simp only [Bool.or_eq_false_iff, decide_eq_false_iff_not]
    omega
  refine ⟨⟨?_, ?_, ?_⟩, ⟨?_, ?_, ?_⟩⟩ <;>
    unfold handlerA mkReqA processCreditCardPaymentAC processInvoiceRequestAC <;>
    simp [hstr, hnm, hfstr, hcclit, hinvlit, hco, hjt, hph, hct, hget, hlook, hnp2, hta,
          parseIntJS, hseats, hpmid, hgw, hupd, hput, hmail, stripeCatch,
          updateAppAt, lookupA_setA, cardStudentRecord, invoiceStudentRecord]

/-- Witness for the amended C4 at a concrete e-mail failure. -/
theorem claim4_email_failure_amended_witness :
    ((handlerA (mkReqA (JsVal.str "ann@x.com") (JsVal.str "Ann") (JsVal.str "$13,500")
        (JsVal.num 5) (JsVal.str "credit-card") (JsVal.str "X Corp") (JsVal.str "CTO")
        (JsVal.str "+1") (JsVal.str "US") (JsVal.str "pm_card_visa"))
        storeUnpaid extEmailFail).1
      = ⟨400, some { error := some "Payment processing failed.", details := some "MessageRejected" }⟩ ∧
     (lookupA (handlerA (mkReqA (JsVal.str "ann@x.com") (JsVal.str "Ann") (JsVal.str "$13,500")
        (JsVal.num 5) (JsVal.str "credit-card") (JsVal.str "X Corp") (JsVal.str "CTO")
        (JsVal.str "+1") (JsVal.str "US") (JsVal.str "pm_card_visa"))
        storeUnpaid extEmailFail).2.1.applications "ann@x.com").map
          ApplicationItem.paymentStatus = some (some "paid") ∧
     lookupA (handlerA (mkReqA (JsVal.str "ann@x.com") (JsVal.str "Ann") (JsVal.str "$13,500")
        (JsVal.num 5) (JsVal.str "credit-card") (JsVal.str "X Corp") (JsVal.str "CTO")
        (JsVal.str "+1") (JsVal.str "US") (JsVal.str "pm_card_visa"))
        storeUnpaid extEmailFail).2.1.students "ann@x.com"
      = some (cardStudentRecord "student#ai-accelerator" "ann@x.com" (JsVal.str "Ann")
          (JsVal.str "X Corp") (JsVal.str "CTO") (JsVal.str "+1") (JsVal.str "US")
          "13500" 5 (totalAmountCentsA (parseIntD "13500") 5) none "pi_123"
          "2026-01-02T03:04:05.000Z")) ∧
    ((handlerA (mkReqA (JsVal.str "ann@x.com") (JsVal.str "Ann") (JsVal.str "$13,500")
        (JsVal.num 5) (JsVal.str "invoice") (JsVal.str "X Corp") (JsVal.str "CTO")
        (JsVal.str "+1") (JsVal.str "US") (JsVal.str "pm_card_visa"))
        storeUnpaid extEmailFail).1
      = resp500 "Invoice request failed. Please try again." ∧
     (lookupA (handlerA (mkReqA (JsVal.str "ann@x.com") (JsVal.str "Ann") (JsVal.str "$13,500")
        (JsVal.num 5) (JsVal.str "invoice") (JsVal.str "X Corp") (JsVal.str "CTO")
        (JsVal.str "+1") (JsVal.str "US") (JsVal.str "pm_card_visa"))
        storeUnpaid extEmailFail).2.1.applications "ann@x.com").map
          ApplicationItem.paymentStatus = some (some "pending") ∧
     lookupA (handlerA (mkReqA (JsVal.str "ann@x.com") (JsVal.str "Ann") (JsVal.str "$13,500")
        (JsVal.num 5) (JsVal.str "invoice") (JsVal.str "X Corp") (JsVal.str "CTO")
        (JsVal.str "+1") (JsVal.str "US") (JsVal.str "pm_card_visa"))
        storeUnpaid extEmailFail).2.1.students "ann@x.com"
      = some (invoiceStudentRecord "student#ai-accelerator" "ann@x.com" (JsVal.str "Ann")
          (JsVal.str "X Corp") (JsVal.str "CTO") (JsVal.str "+1") (JsVal.str "US")
          "13500" 5 (totalAmountCentsA (parseIntD "13500") 5) none
          "2026-01-02T03:04:05.000Z")) :=
  claim4_email_failure_amended "ann@x.com" (by decide)
    (JsVal.str "Ann") (JsVal.str "X Corp") (JsVal.str "CTO") (JsVal.str "+1")
    (JsVal.str "US") (JsVal.str "pm_card_visa") (by decide) (by decide) (by decide)
    (by decide) (by decide) (by decide)
    "$13,500" "13500" (by decide) (by decide) 5 (by decide) (by decide)
    storeUnpaid extEmailFail appUnpaid "pi_123" "MessageRejected"
    rfl (by decide) (by decide) rfl rfl rfl rfl

/-- C5 counterexample: the response after capture succeeded and the record
write threw is byte-for-byte the same generic 400 as a run where the
gateway call itself threw before any money moved — the condition is not
surfaced as a distinguished error class, even though the first run did
charge the card (2025000 cents). -/
theorem claim5_not_distinguished_counterexample :
    (handlerA reqCardA storeUnpaid extWriteFail).1
      = (handlerA reqCardA storeUnpaid extGenericThrow).1 ∧
    (handlerA reqCardA storeUnpaid extWriteFail).2.2.filter Effect.isCharge
      = [Effect.charge 2025000] ∧
    (handlerA reqCardA storeUnpaid extGenericThrow).2.2.filter Effect.isWrite = [] ∧
    (handlerA reqCardA storeUnpaid extWriteFail).1.statusCode = 400 := by
  decide

/-- C5 (amended): when the capture succeeds and the subsequent application
write throws, the handler answers the same generic 400
`Payment processing failed.` body (the thrown message only in `details`)
used for other processing errors — not a distinguished error class — with
no record persisted; it attempts no automatic rollback: the gateway is
charged exactly once and no further gateway effect occurs. -/
theorem claim5_capture_write_fail_amended
    (s : String) (hsne : s ≠ "")
    (nm co jt ph ct pmid : JsVal)
    (hnm : truthy nm = true) (hco : truthy co = true) (hjt : truthy jt = true)
    (hph : truthy ph = true) (hct : truthy ct = true) (hpmid : truthy pmid = true)
    (f ta : String) (hfne : f ≠ "") (hta : parseTierAmount f = some ta)
    (n : Int) (hn0 : 0 ≤ n) (hn1 : n ≤ 40)
    (st : Store) (ext : ExtCall) (item : ApplicationItem) (pid : String) (m : String)
    (hget : ext.getAppErr = false)
    (hlook : lookupA st.applications s = some item)
    (hnp : item.paymentStatus ≠ some "paid")
    (hgw : ext.gateway = GatewayOutcome.ok "succeeded" pid)
    (hupd : ext.updateAppErr = some m) :
    handlerA (mkReqA (JsVal.str s) nm (JsVal.str f) (JsVal.num n)
        (JsVal.str "credit-card") co jt ph ct pmid) st ext
      = (⟨400, some { error := some "Payment processing failed.", details := some m }⟩, st,
         [Effect.getApplication s, Effect.charge (totalAmountCentsA (parseIntD ta) n),
          Effect.updateApplication s]) ∧
    (handlerA (mkReqA (JsVal.str s) nm (JsVal.str f) (JsVal.num n)
        (JsVal.str "credit-card") co jt ph ct pmid) st ext).2.2.filter Effect.isCharge
      = [Effect.charge (totalAmountCentsA (parseIntD ta) n)] := by
  have hstr : truthy (JsVal.str s) = true := by simp [truthy, hsne]
  have hfstr : truthy (JsVal.str f) = true := by simp [truthy, hfne]
  have hnp2 : (item.paymentStatus == some "paid") = false := by simp [hnp]
  have hcclit : truthy (JsVal.str "credit-card") = true := by decide
  have hseats : (decide (n < 0) || decide (n > 40)) = false := by
    simp only [Bool.or_eq_false_iff, decide_eq_false_iff_not]
    omega
  constructor <;>
    unfold handlerA mkReqA processCreditCardPaymentAC <;>
    simp [hstr, hnm, hfstr, hcclit, hco, hjt, hph, hct, hget, hlook, hnp2, hta,
          parseIntJS, hseats, hpmid, hgw, hupd, stripeCatch, Effect.isCharge]

/-- Witness for the amended C5 at a concrete write failure after capture. -/
theorem claim5_capture_write_fail_amended_witness :
    handlerA (mkReqA (JsVal.str "ann@x.com") (JsVal.str "Ann") (JsVal.str "$13,500")
        (JsVal.num 5) (JsVal.str "credit-card") (JsVal.str "X Corp") (JsVal.str "CTO")
        (JsVal.str "+1") (JsVal.str "US") (JsVal.str "pm_card_visa"))
        storeUnpaid extWriteFail
      = (⟨400, some { error := some "Payment processing failed.", details := some "socket hang up" }⟩,
         storeUnpaid,
         [Effect.getApplication "ann@x.com",
          Effect.charge (totalAmountCentsA (parseIntD "13500") 5),
          Effect.updateApplication "ann@x.com"]) ∧
    (handlerA (mkReqA (JsVal.str "ann@x.com") (JsVal.str "Ann") (JsVal.str "$13,500")
        (JsVal.num 5) (JsVal.str "credit-card") (JsVal.str "X Corp") (JsVal.str "CTO")
        (JsVal.str "+1") (JsVal.str "US") (JsVal.str "pm_card_visa"))
        storeUnpaid extWriteFail).2.2.filter Effect.isCharge
      = [Effect.charge (totalAmountCentsA (parseIntD "13500") 5)] :=
  claim5_capture_write_fail_amended "ann@x.com" (by decide)
    (JsVal.str "Ann") (JsVal.str "X Corp") (JsVal.str "CTO") (JsVal.str "+1")
    (JsVal.str "US") (JsVal.str "pm_card_visa") (by decide) (by decide) (by decide)
    (by decide) (by decide) (by decide)
    "$13,500" "13500" (by decide) (by decide) 5 (by decide) (by decide)
    storeUnpaid extWriteFail appUnpaid "pi_123" "socket hang up"
    rfl (by decide) (by decide) rfl rfl

/-- Lower-casing yields the empty string exactly on the empty string. -/
theorem jsToLowerStr_eq_empty_iff (a : String) : jsToLowerStr a = "" ↔ a = "" := by
  obtain ⟨l⟩ := a
  cases l <;> simp [jsToLowerStr, String.toList, String.ext_iff]


/-- C6 (amended): validation fails with exactly one first-encountered
field-specific error, and the named-tier handler checks, in order:
applicant e-mail present; name present; tier present (presence only);
payment method present; payment method one of the two allowed values;
company; job title; phone; country; then — only after the store lookup,
the 404 missing-application case, and the already-paid conflict — tier
validity against the catalog, the seats range, and the support-hours
range.  Tier validity is thus not checked at the third position the claim
states, and a 404 or conflict can precede it. -/
theorem claim6_validation_order_amended
    (a : String) (nm tv pm co jt ph ct seatsV hoursV pmid : JsVal)
    (st : Store) (ext : ExtCall) :
    (a = "" →
      handlerB (mkReqB (JsVal.str a) nm tv seatsV hoursV pm co jt ph ct pmid) st ext
        = (resp400 "Applicant email is required.", st, [])) ∧
    (a ≠ "" → truthy nm = false →
      handlerB (mkReqB (JsVal.str a) nm tv seatsV hoursV pm co jt ph ct pmid) st ext
        = (resp400 "Name is required.", st, [])) ∧
    (a ≠ "" → truthy nm = true → truthy tv = false →
      handlerB (mkReqB (JsVal.str a) nm tv seatsV hoursV pm co jt ph ct pmid) st ext
        = (resp400 "Tier is required.", st, [])) ∧
    (a ≠ "" → truthy nm = true → truthy tv = true → truthy pm = false →
      handlerB (mkReqB (JsVal.str a) nm tv seatsV hoursV pm co jt ph ct pmid) st ext
        = (resp400 "Payment method is required.", st, [])) ∧
    (a ≠ "" → truthy nm = true → truthy tv = true → truthy pm = true →
      pm ≠ JsVal.str "credit-card" → pm ≠ JsVal.str "invoice" →
      handlerB (mkReqB (JsVal.str a) nm tv seatsV hoursV pm co jt ph ct pmid) st ext
        = (resp400 "Payment method must be \"credit-card\" or \"invoice\".", st, [])) ∧
    (a ≠ "" → truthy nm = true → truthy tv = true →
      (pm = JsVal.str "credit-card" ∨ pm = JsVal.str "invoice") → truthy co = false →
      handlerB (mkReqB (JsVal.str a) nm tv seatsV hoursV pm co jt ph ct pmid) st ext
        = (resp400 "Company is required.", st, [])) ∧
    (a ≠ "" → truthy nm = true → truthy tv = true →
      (pm = JsVal.str "credit-card" ∨ pm = JsVal.str "invoice") → truthy co = true →
      truthy jt = false →
      handlerB (mkReqB (JsVal.str a) nm tv seatsV hoursV pm co jt ph ct pmid) st ext
        = (resp400 "Job title is required.", st, [])) ∧
    (a ≠ "" → truthy nm = true → truthy tv = true →
      (pm = JsVal.str "credit-card" ∨ pm = JsVal.str "invoice") → truthy co = true →
      truthy jt = true → truthy ph = false →
      handlerB (mkReqB (JsVal.str a) nm tv seatsV hoursV pm co jt ph ct pmid) st ext
        = (resp400 "Phone is required.", st, [])) ∧
    (a ≠ "" → truthy nm = true → truthy tv = true →
      (pm = JsVal.str "credit-card" ∨ pm = JsVal.str "invoice") → truthy co = true →
      truthy jt = true → truthy ph = true → truthy ct = false →
      handlerB (mkReqB (JsVal.str a) nm tv seatsV hoursV pm co jt ph ct pmid) st ext
        = (resp400 "Country is required.", st, [])) ∧
    (a ≠ "" → truthy nm = true → truthy tv = true →
      (pm = JsVal.str "credit-card" ∨ pm = JsVal.str "invoice") → truthy co = true →
      truthy jt = true → truthy ph = true → truthy ct = true →
      ext.getAppErr = false → lookupA st.applications (jsToLowerStr a) = none →
      handlerB (mkReqB (JsVal.str a) nm tv seatsV hoursV pm co jt ph ct pmid) st ext
        = (resp404 "Application not found. Please apply first.", st,
           [Effect.getApplication (jsToLowerStr a)])) ∧
    (∀ item : ApplicationItem, a ≠ "" → truthy nm = true → truthy tv = true →
      (pm = JsVal.str "credit-card" ∨ pm = JsVal.str "invoice") → truthy co = true →
      truthy jt = true → truthy ph = true → truthy ct = true →
      ext.getAppErr = false → lookupA st.applications (jsToLowerStr a) = some item →
      item.paymentStatus = some "paid" →
      handlerB (mkReqB (JsVal.str a) nm tv seatsV hoursV pm co jt ph ct pmid) st ext
        = (resp400 (conflictMessage item), st, [Effect.getApplication (jsToLowerStr a)])) ∧
    (∀ item : ApplicationItem, a ≠ "" → truthy nm = true → truthy tv = true →
      (pm = JsVal.str "credit-card" ∨ pm = JsVal.str "invoice") → truthy co = true →
      truthy jt = true → truthy ph = true → truthy ct = true →
      ext.getAppErr = false → lookupA st.applications (jsToLowerStr a) = some item →
      item.paymentStatus ≠ some "paid" → lookupA validTiersB (jsKey tv) = none →
      handlerB (mkReqB (JsVal.str a) nm tv seatsV hoursV pm co jt ph ct pmid) st ext
        = (resp400 "Invalid tier. Must be \"scholarship\" or \"vip\".", st,
           [Effect.getApplication (jsToLowerStr a)])) ∧
    (∀ (item : ApplicationItem) (ti : TierInfo), a ≠ "" → truthy nm = true → truthy tv = true →
      (pm = JsVal.str "credit-card" ∨ pm = JsVal.str "invoice") → truthy co = true →
      truthy jt = true → truthy ph = true → truthy ct = true →
      ext.getAppErr = false → lookupA st.applications (jsToLowerStr a) = some item →
      item.paymentStatus ≠ some "paid" → lookupA validTiersB (jsKey tv) = some ti →
      ((parseIntJS seatsV).getD 0 < 0 ∨ (parseIntJS seatsV).getD 0 > 40) →
      handlerB (mkReqB (JsVal.str a) nm tv seatsV hoursV pm co jt ph ct pmid) st ext
        = (resp400 "Additional seats must be between 0 and 40.", st,
           [Effect.getApplication (jsToLowerStr a)])) ∧
    (∀ (item : ApplicationItem) (ti : TierInfo), a ≠ "" → truthy nm = true → truthy tv = true →
      (pm = JsVal.str "credit-card" ∨ pm = JsVal.str "invoice") → truthy co = true →
      truthy jt = true → truthy ph = true → truthy ct = true →
      ext.getAppErr = false → lookupA st.applications (jsToLowerStr a) = some item →
      item.paymentStatus ≠ some "paid" → lookupA validTiersB (jsKey tv) = some ti →
      (0 ≤ (parseIntJS seatsV).getD 0 ∧ (parseIntJS seatsV).getD 0 ≤ 40) →
      ((parseIntJS hoursV).getD 0 < 0 ∨ (parseIntJS hoursV).getD 0 > 100) →
      handlerB (mkReqB (JsVal.str a) nm tv seatsV hoursV pm co jt ph ct pmid) st ext
        = (resp400 "Addon support hours must be between 0 and 100.", st,
           [Effect.getApplication (jsToLowerStr a)])) := by
  have hlow : ∀ a0 : String, a0 ≠ "" → truthy (JsVal.str (jsToLowerStr a0)) = true := by
    intro a0 h0
    have : jsToLowerStr a0 ≠ "" := by
      rw [ne_eq, jsToLowerStr_eq_empty_iff]
      exact h0
    simp [truthy, this]
  have hccl : truthy (JsVal.str "credit-card") = true := by decide
  have hinvl : truthy (JsVal.str "invoice") = true := by decide
  refine ⟨?_, ?_, ?_, ?_, ?_, ?_, ?_, ?_, ?_, ?_, ?_, ?_, ?_, ?_⟩
  · intro h
    subst h
    have h0 : truthy (JsVal.str (jsToLowerStr "")) = false := by decide
    unfold handlerB handlerBrest handlerBvalidate mkReqB
    simp [jsLower, h0]
  · intro ha hn
    unfold handlerB handlerBrest handlerBvalidate mkReqB
    simp [jsLower, hlow a ha, hn]
  · intro ha hn ht
    unfold handlerB handlerBrest handlerBvalidate mkReqB
    simp [jsLower, hlow a ha, hn, ht]
  · intro ha hn ht hp
    unfold handlerB handlerBrest handlerBvalidate mkReqB
    simp [jsLower, hlow a ha, hn, ht, hp]
  · intro ha hn ht hp hc1 hc2
    have hb1 : (pm == JsVal.str "credit-card") = false := by simp [hc1]
    have hb2 : (pm == JsVal.str "invoice") = false := by simp [hc2]
    unfold handlerB handlerBrest handlerBvalidate mkReqB
    simp [jsLower, hlow a ha, hn, ht, hp, hb1, hb2]
  · intro ha hn ht hp hcf
    unfold handlerB handlerBrest handlerBvalidate mkReqB
    rcases hp with h | h <;> subst h <;> simp [jsLower, hlow a ha, hn, ht, hccl, hinvl, hcf]
  · intro ha hn ht hp hcot hjf
    unfold handlerB handlerBrest handlerBvalidate mkReqB
    rcases hp with h | h <;> subst h <;> simp [jsLower, hlow a ha, hn, ht, hccl, hinvl, hcot, hjf]
  · intro ha hn ht hp hcot hjt2 hpf
    unfold handlerB handlerBrest handlerBvalidate mkReqB
    rcases hp with h | h <;> subst h <;> simp [jsLower, hlow a ha, hn, ht, hccl, hinvl, hcot, hjt2, hpf]
  · intro ha hn ht hp hcot hjt2 hpt hctf
    unfold handlerB handlerBrest handlerBvalidate mkReqB
    rcases hp with h | h <;> subst h <;>
      simp [jsLower, hlow a ha, hn, ht, hccl, hinvl, hcot, hjt2, hpt, hctf]
  · intro ha hn ht hp hcot hjt2 hpt hctt hg hl
    unfold handlerB handlerBrest handlerBvalidate mkReqB
    rcases hp with h | h <;> subst h <;>
      simp [jsLower, hlow a ha, hn, ht, hccl, hinvl, hcot, hjt2, hpt, hctt, hg, hl]
  · intro item ha hn ht hp hcot hjt2 hpt hctt hg hl hpaid
    unfold handlerB handlerBrest handlerBvalidate mkReqB
    rcases hp with h | h <;> subst h <;>
      simp [jsLower, hlow a ha, hn, ht, hccl, hinvl, hcot, hjt2, hpt, hctt, hg, hl, hpaid]
  · intro item ha hn ht hp hcot hjt2 hpt hctt hg hl hnp hti
    have hnp2 : (item.paymentStatus == some "paid") = false := by simp [hnp]
    unfold handlerB handlerBrest handlerBvalidate mkReqB
    rcases hp with h | h <;> subst h <;>
      simp [jsLower, hlow a ha, hn, ht, hccl, hinvl, hcot, hjt2, hpt, hctt, hg, hl, hnp2, hti]
  · intro item ti ha hn ht hp hcot hjt2 hpt hctt hg hl hnp hti hout
    have hnp2 : (item.paymentStatus == some "paid") = false := by simp [hnp]
    have hseats : (decide ((parseIntJS seatsV).getD 0 < 0) || decide ((parseIntJS seatsV).getD 0 > 40)) = true := by
      rcases hout with h | h <;> simp [h]
    unfold handlerB handlerBrest handlerBvalidate mkReqB
    rcases hp with h | h <;> subst h <;>
      simp [jsLower, hlow a ha, hn, ht, hccl, hinvl, hcot, hjt2, hpt, hctt, hg, hl, hnp2, hti, hseats]
  · intro item ti ha hn ht hp hcot hjt2 hpt hctt hg hl hnp hti hin hout
    have hnp2 : (item.paymentStatus == some "paid") = false := by simp [hnp]
    have hseats : (decide ((parseIntJS seatsV).getD 0 < 0) || decide ((parseIntJS seatsV).getD 0 > 40)) = false := by
      obtain ⟨h1, h2⟩ := hin
      simp only [Bool.or_eq_false_iff, decide_eq_false_iff_not]
      omega
    have hhrs : (decide ((parseIntJS hoursV).getD 0 < 0) || decide ((parseIntJS hoursV).getD 0 > 100)) = true := by
      rcases hout with h | h <;> simp [h]
    unfold handlerB handlerBrest handlerBvalidate mkReqB
    rcases hp with h | h <;> subst h <;>
      simp [jsLower, hlow a ha, hn, ht, hccl, hinvl, hcot, hjt2, hpt, hctt, hg, hl, hnp2, hti, hseats, hhrs]

/-- Witness for the amended C6 order: with every earlier field valid, an
invalid (but present) tier is reported only after the store lookup — here
concretely as the tier-invalid 400 after a successful application get. -/
theorem claim6_validation_order_amended_witness :
    handlerB (mkReqB (JsVal.str "ann@x.com") (JsVal.str "Ann") (JsVal.str "bogus")
        (JsVal.num 0) (JsVal.num 0) (JsVal.str "invoice") (JsVal.str "X Corp")
        (JsVal.str "CTO") (JsVal.str "+1") (JsVal.str "US") JsVal.undef)
        storeUnpaid extSucceed
      = (resp400 "Invalid tier. Must be \"scholarship\" or \"vip\".", storeUnpaid,
         [Effect.getApplication (jsToLowerStr "ann@x.com")]) :=
  (claim6_validation_order_amended "ann@x.com" (JsVal.str "Ann") (JsVal.str "bogus")
    (JsVal.str "invoice") (JsVal.str "X Corp") (JsVal.str "CTO") (JsVal.str "+1")
    (JsVal.str "US") (JsVal.num 0) (JsVal.num 0) JsVal.undef storeUnpaid
    extSucceed).2.2.2.2.2.2.2.2.2.2.2.1 appUnpaid (by decide) (by decide) (by decide)
    (Or.inr rfl) (by decide) (by decide) (by decide) (by decide) rfl (by decide)
    (by decide) (by decide)

/-- C6 counterexample: for a request whose tier field is present but
invalid and whose company field is missing, the claimed order (tier
validity third) predicts the tier-invalid error, but the handler reports
the missing company — tier validity is checked later than claimed. -/
theorem claim6_order_counterexample :
    handlerB reqTierBogusNoCompany storeUnpaid extSucceed
      = (resp400 "Company is required.", storeUnpaid, []) ∧
    resp400 "Company is required."
      ≠ resp400 "Invalid tier. Must be \"scholarship\" or \"vip\"." := by
  decide
